import Mathlib

/-!
# ATen scalar-type dispatch (`aten/src/ATen/Dispatch.h`)

A shallow embedding of the `AT_DISPATCH_*` family.  Every such C++ construct expands to an
immediately invoked lambda `[&] { <prologue>; switch (<tag>) { <cases> default: AT_ERROR(...) } }()`.
The embedding keeps the three parts of that lambda apart (`SwitchLambda`), so that both its
static shape (the case labels) and its run-time behaviour (`SwitchLambda.invoke`) can be
talked about.  Evaluation is explicit state passing: an expression is a function from a
state to an outcome (a value or a thrown `c10::Error`) and a new state, so that expensive or
side-effecting tag expressions are observable.
-/

set_option autoImplicit false

namespace ATen

/-! ## Collaborators declared outside `Dispatch.h` -/

/-- Modelled from the spec: the closed enumeration `at::ScalarType` (declared in
`c10/core/ScalarType.h`, which is not part of the sources at hand).  The tags are the ones
`Dispatch.h` and the specification name. -/
inductive ScalarType
  | Byte | Char | Short | Int | Long | Half | Float | Double
  | ComplexFloat | ComplexDouble | Bool | QInt8 | QUInt8 | QInt32 | BFloat16
  deriving DecidableEq

/-- Modelled from the spec: `at::kChar`, the short constant for `at::ScalarType::Char`. -/
abbrev kChar : ScalarType := ScalarType.Char
/-- Modelled from the spec: `at::kByte`, the short constant for `at::ScalarType::Byte`. -/
abbrev kByte : ScalarType := ScalarType.Byte
/-- Modelled from the spec: `at::kInt`, the short constant for `at::ScalarType::Int`. -/
abbrev kInt : ScalarType := ScalarType.Int
/-- Modelled from the spec: `at::kQInt8`, the short constant for `at::ScalarType::QInt8`. -/
abbrev kQInt8 : ScalarType := ScalarType.QInt8
/-- Modelled from the spec: `at::kQUInt8`, the short constant for `at::ScalarType::QUInt8`. -/
abbrev kQUInt8 : ScalarType := ScalarType.QUInt8
/-- Modelled from the spec: `at::kQInt32`, the short constant for `at::ScalarType::QInt32`. -/
abbrev kQInt32 : ScalarType := ScalarType.QInt32

/-- Modelled from the spec: `displayNameOf(tag)`, in the code `toString(at::ScalarType)` of
`c10/core/ScalarType.h`: the canonical display name of a tag is the name of the tag. -/
def toString : ScalarType → String
  | ScalarType.Byte => "Byte"
  | ScalarType.Char => "Char"
  | ScalarType.Short => "Short"
  | ScalarType.Int => "Int"
  | ScalarType.Long => "Long"
  | ScalarType.Half => "Half"
  | ScalarType.Float => "Float"
  | ScalarType.Double => "Double"
  | ScalarType.ComplexFloat => "ComplexFloat"
  | ScalarType.ComplexDouble => "ComplexDouble"
  | ScalarType.Bool => "Bool"
  | ScalarType.QInt8 => "QInt8"
  | ScalarType.QUInt8 => "QUInt8"
  | ScalarType.QInt32 => "QInt32"
  | ScalarType.BFloat16 => "BFloat16"

/-- The C++ types a dispatch can bind `scalar_t` (or `underlying_t`) to.  These are the type
names that occur in `Dispatch.h`: `uint8_t`, `int8_t`, `int16_t`, `int32_t`, `int64_t`,
`at::Half`, `float`, `double`, `c10::complex<float>`, `c10::complex<double>`, `bool`,
`at::qint8`, `at::quint8`, `at::qint32`, `at::BFloat16`. -/
inductive CppType
  | uint8_t | int8_t | int16_t | int32_t | int64_t | Half | float | double
  | complex_float | complex_double | bool | qint8 | quint8 | qint32 | BFloat16
  deriving DecidableEq

/-- The C++ type `int`, written in the `kQInt32` case of `AT_DISPATCH_QINT_TYPES`; on the
platforms ATen builds for, `int32_t` is a typedef of `int`. -/
abbrev CppType.int : CppType := CppType.int32_t

/-- Modelled from the spec: the category of a representation, one of signed-int,
unsigned-int, floating, complex, quantized, boolean. -/
inductive Category
  | signedInt | unsignedInt | floating | complex | quantized | boolean
  deriving DecidableEq

/-- Modelled from the spec: the byte width of a representation (`sizeof` in the code). -/
def CppType.sizeof : CppType → Nat
  | CppType.uint8_t => 1
  | CppType.int8_t => 1
  | CppType.int16_t => 2
  | CppType.int32_t => 4
  | CppType.int64_t => 8
  | CppType.Half => 2
  | CppType.float => 4
  | CppType.double => 8
  | CppType.complex_float => 8
  | CppType.complex_double => 16
  | CppType.bool => 1
  | CppType.qint8 => 1
  | CppType.quint8 => 1
  | CppType.qint32 => 4
  | CppType.BFloat16 => 2

/-- Modelled from the spec: the category of a representation. -/
def CppType.category : CppType → Category
  | CppType.uint8_t => Category.unsignedInt
  | CppType.int8_t => Category.signedInt
  | CppType.int16_t => Category.signedInt
  | CppType.int32_t => Category.signedInt
  | CppType.int64_t => Category.signedInt
  | CppType.Half => Category.floating
  | CppType.float => Category.floating
  | CppType.double => Category.floating
  | CppType.complex_float => Category.complex
  | CppType.complex_double => Category.complex
  | CppType.bool => Category.boolean
  | CppType.qint8 => Category.quantized
  | CppType.quint8 => Category.quantized
  | CppType.qint32 => Category.quantized
  | CppType.BFloat16 => Category.floating

/-- Modelled from the spec: `representationOf(tag)`, in the code the registry
`c10::impl::ScalarTypeToCPPType<tag>::t` of `c10/core/ScalarType.h`, which the `..._AND`
variants consult for their extra tags. -/
def ScalarTypeToCPPType : ScalarType → CppType
  | ScalarType.Byte => CppType.uint8_t
  | ScalarType.Char => CppType.int8_t
  | ScalarType.Short => CppType.int16_t
  | ScalarType.Int => CppType.int32_t
  | ScalarType.Long => CppType.int64_t
  | ScalarType.Half => CppType.Half
  | ScalarType.Float => CppType.float
  | ScalarType.Double => CppType.double
  | ScalarType.ComplexFloat => CppType.complex_float
  | ScalarType.ComplexDouble => CppType.complex_double
  | ScalarType.Bool => CppType.bool
  | ScalarType.QInt8 => CppType.qint8
  | ScalarType.QUInt8 => CppType.quint8
  | ScalarType.QInt32 => CppType.qint32
  | ScalarType.BFloat16 => CppType.BFloat16

/-- Modelled from the spec: `toUnderlying(tag)` of `c10/core/ScalarType.h`, the tag of the
unquantized storage counterpart of a quantized tag (`QInt8` is stored as `Char`, `QUInt8` as
`Byte`, `QInt32` as `Int`); any other tag is its own storage tag. -/
def toUnderlying : ScalarType → ScalarType
  | ScalarType.QInt8 => ScalarType.Char
  | ScalarType.QUInt8 => ScalarType.Byte
  | ScalarType.QInt32 => ScalarType.Int
  | t => t

/-- Modelled from the spec: the member type `scalar_t::underlying` of the quantized
representations (`c10/util/qint8.h`, `quint8.h`, `qint32.h`): the representation of the
unquantized storage counterpart.  Only the three quantized types have such a member. -/
def CppType.underlying : CppType → Option CppType
  | CppType.qint8 => some CppType.int8_t
  | CppType.quint8 => some CppType.uint8_t
  | CppType.qint32 => some CppType.int32_t
  | _ => none

/-- Modelled from the spec: `at::DeprecatedTypeProperties`
(`ATen/core/DeprecatedTypeProperties.h`), the legacy value some call sites still pass as
the tag; it carries a scalar type next to other properties. -/
structure DeprecatedTypeProperties where
  backend : Nat
  scalar_type : ScalarType
  deriving DecidableEq

/-- Modelled from the spec: the accessor `DeprecatedTypeProperties::scalarType()`. -/
def DeprecatedTypeProperties.scalarType (t : DeprecatedTypeProperties) : ScalarType :=
  t.scalar_type

/-! ## Errors and effectful evaluation -/

/-- Modelled from the spec: the error a failed dispatch raises (`c10::Error` of
`c10/util/Exception.h`), identified by its message text. -/
structure Error where
  msg : String
  deriving DecidableEq

/-- Modelled from the spec: the Error Reporter `report(operationName,
rejectedTypeDisplayName)`, producing the one error kind `UnsupportedType` with the message
shape `<operationName> not implemented for '<rejectedTypeDisplayName>'`. -/
def UnsupportedType (operationName rejectedTypeDisplayName : String) : Error :=
  { msg := operationName ++ " not implemented for '" ++ rejectedTypeDisplayName ++ "'" }

/-- What evaluating a C++ expression or statement yields: the value it returns or the error
it throws, and the state it leaves behind. -/
abbrev Outcome (σ R : Type) : Type := Except Error R × σ

/-- A C++ expression or statement, as a function of the state it is evaluated in. -/
def Comp (σ R : Type) : Type := σ → Outcome σ R

/-- An expression without effects. -/
def Comp.pure {σ R : Type} (r : R) : Comp σ R := fun s => (Except.ok r, s)

/-- Sequencing: a thrown error skips the rest; the state changes made so far remain. -/
def Comp.bind {σ A B : Type} (c : Comp σ A) (f : A → Comp σ B) : Comp σ B := fun s =>
  match c s with
  | (Except.ok a, s1) => f a s1
  | (Except.error e, s1) => (Except.error e, s1)

instance {σ : Type} : Monad (Comp σ) where
  pure := Comp.pure
  bind := Comp.bind

/-- An argument of `AT_ERROR`: a C string, or a scalar type tag written to the message
stream as is. -/
inductive StrArg
  | text (s : String)
  | scalarType (t : ScalarType)

/-- Modelled from the spec: how one `AT_ERROR` argument is rendered into the message; a tag
is rendered by its display name (`operator<<` for `at::ScalarType` in
`c10/core/ScalarType.h`). -/
def StrArg.render : StrArg → String
  | StrArg.text s => s
  | StrArg.scalarType t => toString t

/-- Modelled from the spec: `c10::str(args...)`, the concatenation of the rendered
arguments, which is the message of the error `AT_ERROR` throws. -/
def c10_str (args : List StrArg) : String :=
  args.foldl (fun acc a => acc ++ a.render) ""

/-- Modelled from the spec: `AT_ERROR(args...)` of `c10/util/Exception.h`: throws the error
whose message is the concatenation of the arguments. -/
def AT_ERROR {σ R : Type} (args : List StrArg) : Comp σ R := fun s =>
  (Except.error { msg := c10_str args }, s)

/-- The `NAME` argument as it is written at the call site.  `Dispatch.h` uses `NAME` only
under the preprocessor operator `#`, so what reaches the program is the spelling of the
argument.  The documented usage (`AT_DISPATCH_ALL_TYPES(self.scalar_type(), "op_name", ...)`)
passes a string literal; `chars` is what stands between its quotes.  A bare token
(`AT_DISPATCH_ALL_TYPES(t, op_name, ...)`) is accepted as well. -/
inductive NameArg
  | stringLiteral (chars : String)
  | token (spelling : String)

/-- The preprocessor operator `#` applied to `NAME`: a string literal whose value is the
spelling of the argument.  For a string literal argument the spelling includes its two
double quotes (the preprocessor escapes them so that they are part of the value). -/
def stringize : NameArg → String
  | NameArg.stringLiteral chars => "\"" ++ chars ++ "\""
  | NameArg.token spelling => spelling

/-! ## `Dispatch.h` -/

/-- The names a case block declares for the lambda body before it calls it: `scalar_t`
always, and `underlying_t`, `SCALAR_TYPE`, `UNDERLYING_TYPE` in the quantized cases. -/
structure Bindings where
  scalar_t : CppType
  underlying_t : Option CppType := none
  SCALAR_TYPE : Option ScalarType := none
  UNDERLYING_TYPE : Option ScalarType := none
  deriving DecidableEq

/-- The generic lambda passed as `__VA_ARGS__`: it is written against the names the case
block declares, and may itself throw. -/
abbrev Body (σ R : Type) : Type := Bindings → Comp σ R

/-- One `case enum_type: { <decls> return __VA_ARGS__(); }` block of a switch. -/
structure Case (σ R : Type) where
  enum_type : ScalarType
  decls : Bindings
  ret : Comp σ R

/-- Source lines 10-14:
`case enum_type: { using scalar_t = type; return __VA_ARGS__(); }`. -/
def AT_PRIVATE_CASE_TYPE {σ R : Type} (enum_type : ScalarType) (type : CppType)
    (va_args : Body σ R) : Case σ R :=
  { enum_type := enum_type
    decls := { scalar_t := type }
    ret := va_args { scalar_t := type } }

/-- Source lines 25-35: the case block of the quantized profile.  The arguments
`underlying_enum` and `underlying_type` are not used by the expansion: `underlying_t` is
`scalar_t::underlying` and `UNDERLYING_TYPE` is `toUnderlying(enum_type)`. -/
def AT_QINT_PRIVATE_CASE_TYPE {σ R : Type} (enum_type : ScalarType) (type : CppType)
    (_underlying_enum : ScalarType) (_underlying_type : CppType)
    (va_args : Body σ R) : Case σ R :=
  { enum_type := enum_type
    decls :=
      { scalar_t := type
        underlying_t := type.underlying
        SCALAR_TYPE := some enum_type
        UNDERLYING_TYPE := some (toUnderlying enum_type) }
    ret := va_args
      { scalar_t := type
        underlying_t := type.underlying
        SCALAR_TYPE := some enum_type
        UNDERLYING_TYPE := some (toUnderlying enum_type) } }

/-- Source lines 42-55: `AT_SKIP_BFLOAT16_IF_NOT_ROCM(SCALARTYPE, NAME, ...)`, the wrapper
around the lambda inside a dispatch body.  `HIP_PLATFORM_HCC` says whether the build
defines `__HIP_PLATFORM_HCC__` (a ROCm build). -/
def AT_SKIP_BFLOAT16_IF_NOT_ROCM {σ R : Type} (HIP_PLATFORM_HCC : Bool)
    (SCALARTYPE : CppType) (NAME : NameArg) (va_args : Comp σ R) : Comp σ R :=
  if !HIP_PLATFORM_HCC then
    if SCALARTYPE = CppType.BFloat16 then
      AT_ERROR
        [ StrArg.text (stringize NAME),
          StrArg.text " not implemented for '",
          StrArg.text (toString ScalarType.BFloat16),
          StrArg.text "'" ]
    else
      va_args
  else
    va_args

namespace detail

/-- The overload set `detail::scalar_type` (source lines 59-68): one overload per argument
type. -/
class ScalarTypeOverload (α : Type) where
  scalar_type : α → ScalarType

export ScalarTypeOverload (scalar_type)

/-- Source lines 59-61: `scalar_type(at::ScalarType s) { return s; }`. -/
instance : ScalarTypeOverload ScalarType where
  scalar_type := fun s => s

/-- Source lines 66-68:
`scalar_type(const at::DeprecatedTypeProperties& t) { return t.scalarType(); }`. -/
instance : ScalarTypeOverload DeprecatedTypeProperties where
  scalar_type := fun t => t.scalarType

/-- Source line 73: `inline void deprecated_AT_DISPATCH_ALL_TYPES_AND_HALF() {}`. -/
def deprecated_AT_DISPATCH_ALL_TYPES_AND_HALF {σ : Type} : Comp σ Unit := Comp.pure ()

/-- Source line 79: `inline void deprecated_AT_DISPATCH_ALL_TYPES_AND_HALF_AND_COMPLEX() {}`. -/
def deprecated_AT_DISPATCH_ALL_TYPES_AND_HALF_AND_COMPLEX {σ : Type} : Comp σ Unit :=
  Comp.pure ()

end detail

/-- The lambda `[&] { <prologue>; switch (<tag>) { <cases> default: <default> } }` every
`AT_DISPATCH_*` expands to.  `scrutinee` is the prologue together with the switch condition;
`default` is the default branch, which may refer to the local `_st` the prologue declared
(it is handed the value the switch was entered with). -/
structure SwitchLambda (σ R : Type) where
  scrutinee : Comp σ ScalarType
  cases : List (Case σ R)
  default : ScalarType → Comp σ R

/-- The case labels of the switch, in source order. -/
def SwitchLambda.labels {σ R : Type} (l : SwitchLambda σ R) : List ScalarType :=
  l.cases.map Case.enum_type

/-- A C++ switch is ill-formed when two case labels have the same value; the compiler
rejects the whole lambda then. -/
def SwitchLambda.wellFormed {σ R : Type} (l : SwitchLambda σ R) : Bool :=
  decide l.labels.Nodup

/-- Running `switch (v) { cases default: dflt }`: control goes to the case whose label is
`v`, else to the default branch. -/
def switch {σ R : Type} (v : ScalarType) : List (Case σ R) → Comp σ R → Comp σ R
  | [], dflt => dflt
  | c :: cs, dflt => if c.enum_type = v then c.ret else switch v cs dflt

/-- The trailing `()`: the lambda is invoked on the spot. -/
def SwitchLambda.invoke {σ R : Type} (l : SwitchLambda σ R) : Comp σ R := do
  let v ← l.scrutinee
  switch v l.cases (l.default v)

/-- Source lines 135-146. -/
def AT_DISPATCH_FLOATING_TYPES {σ R α : Type} [detail.ScalarTypeOverload α]
    (TYPE : Comp σ α) (NAME : NameArg)
    (va_args : Body σ R) : SwitchLambda σ R :=
  { scrutinee := do
      let the_type ← TYPE
      let _st : ScalarType := detail.scalar_type the_type
      pure _st
    cases :=
      [ AT_PRIVATE_CASE_TYPE ScalarType.Double CppType.double va_args,
        AT_PRIVATE_CASE_TYPE ScalarType.Float CppType.float va_args ]
    default := fun _st =>
      AT_ERROR
        [ StrArg.text (stringize NAME),
          StrArg.text " not implemented for '",
          StrArg.text (toString _st),
          StrArg.text "'" ] }

/-- Source lines 148-160. -/
def AT_DISPATCH_FLOATING_TYPES_AND_HALF {σ R α : Type} [detail.ScalarTypeOverload α]
    (TYPE : Comp σ α) (NAME : NameArg)
    (va_args : Body σ R) : SwitchLambda σ R :=
  { scrutinee := do
      let the_type ← TYPE
      let _st : ScalarType := detail.scalar_type the_type
      pure _st
    cases :=
      [ AT_PRIVATE_CASE_TYPE ScalarType.Double CppType.double va_args,
        AT_PRIVATE_CASE_TYPE ScalarType.Float CppType.float va_args,
        AT_PRIVATE_CASE_TYPE ScalarType.Half CppType.Half va_args ]
    default := fun _st =>
      AT_ERROR
        [ StrArg.text (stringize NAME),
          StrArg.text " not implemented for '",
          StrArg.text (toString _st),
          StrArg.text "'" ] }

/-- Source lines 162-177: the prologue reads `TYPE` once into `the_type`, and the
default branch names `TYPE` again (`toString(TYPE)`, declared for `at::ScalarType`). -/
def AT_DISPATCH_FLOATING_TYPES_AND {σ R : Type}
    (SCALARTYPE : ScalarType) (TYPE : Comp σ ScalarType) (NAME : NameArg)
    (va_args : Body σ R) : SwitchLambda σ R :=
  { scrutinee := do
      let the_type ← TYPE
      let _st : ScalarType := detail.scalar_type the_type
      pure _st
    cases :=
      [ AT_PRIVATE_CASE_TYPE ScalarType.Double CppType.double va_args,
        AT_PRIVATE_CASE_TYPE ScalarType.Float CppType.float va_args,
        AT_PRIVATE_CASE_TYPE SCALARTYPE (ScalarTypeToCPPType SCALARTYPE) va_args ]
    default := fun _ => do
      let type ← TYPE
      AT_ERROR
        [ StrArg.text (stringize NAME),
          StrArg.text " not implemented for '",
          StrArg.text (toString type),
          StrArg.text "'" ] }

/-- Source lines 179-199: the prologue reads `TYPE` once into `the_type`, and the
default branch names `TYPE` again (`toString(TYPE)`, declared for `at::ScalarType`). -/
def AT_DISPATCH_FLOATING_TYPES_AND2 {σ R : Type}
    (SCALARTYPE1 SCALARTYPE2 : ScalarType) (TYPE : Comp σ ScalarType) (NAME : NameArg)
    (va_args : Body σ R) : SwitchLambda σ R :=
  { scrutinee := do
      let the_type ← TYPE
      let _st : ScalarType := detail.scalar_type the_type
      pure _st
    cases :=
      [ AT_PRIVATE_CASE_TYPE ScalarType.Double CppType.double va_args,
        AT_PRIVATE_CASE_TYPE ScalarType.Float CppType.float va_args,
        AT_PRIVATE_CASE_TYPE SCALARTYPE1 (ScalarTypeToCPPType SCALARTYPE1) va_args,
        AT_PRIVATE_CASE_TYPE SCALARTYPE2 (ScalarTypeToCPPType SCALARTYPE2) va_args ]
    default := fun _ => do
      let type ← TYPE
      AT_ERROR
        [ StrArg.text (stringize NAME),
          StrArg.text " not implemented for '",
          StrArg.text (toString type),
          StrArg.text "'" ] }

/-- Source lines 201-216. -/
def AT_DISPATCH_FLOATING_AND_COMPLEX_TYPES {σ R α : Type} [detail.ScalarTypeOverload α]
    (TYPE : Comp σ α) (NAME : NameArg)
    (va_args : Body σ R) : SwitchLambda σ R :=
  { scrutinee := do
      let the_type ← TYPE
      let _st : ScalarType := detail.scalar_type the_type
      pure _st
    cases :=
      [ AT_PRIVATE_CASE_TYPE ScalarType.Double CppType.double va_args,
        AT_PRIVATE_CASE_TYPE ScalarType.Float CppType.float va_args,
        AT_PRIVATE_CASE_TYPE ScalarType.ComplexDouble CppType.complex_double va_args,
        AT_PRIVATE_CASE_TYPE ScalarType.ComplexFloat CppType.complex_float va_args ]
    default := fun _st =>
      AT_ERROR
        [ StrArg.text (stringize NAME),
          StrArg.text " not implemented for '",
          StrArg.text (toString _st),
          StrArg.text "'" ] }

/-- Source lines 218-238. -/
def AT_DISPATCH_FLOATING_AND_COMPLEX_TYPES_AND1 {σ R α : Type} [detail.ScalarTypeOverload α]
    (SCALARTYPE : ScalarType) (TYPE : Comp σ α) (NAME : NameArg)
    (va_args : Body σ R) : SwitchLambda σ R :=
  { scrutinee := do
      let the_type ← TYPE
      let _st : ScalarType := detail.scalar_type the_type
      pure _st
    cases :=
      [ AT_PRIVATE_CASE_TYPE ScalarType.Double CppType.double va_args,
        AT_PRIVATE_CASE_TYPE ScalarType.Float CppType.float va_args,
        AT_PRIVATE_CASE_TYPE ScalarType.ComplexDouble CppType.complex_double va_args,
        AT_PRIVATE_CASE_TYPE ScalarType.ComplexFloat CppType.complex_float va_args,
        AT_PRIVATE_CASE_TYPE SCALARTYPE (ScalarTypeToCPPType SCALARTYPE) va_args ]
    default := fun _st =>
      AT_ERROR
        [ StrArg.text (stringize NAME),
          StrArg.text " not implemented for '",
          StrArg.text (toString _st),
          StrArg.text "'" ] }

/-- Source lines 240-264. -/
def AT_DISPATCH_FLOATING_AND_COMPLEX_TYPES_AND2 {σ R α : Type} [detail.ScalarTypeOverload α]
    (SCALARTYPE1 SCALARTYPE2 : ScalarType) (TYPE : Comp σ α) (NAME : NameArg)
    (va_args : Body σ R) : SwitchLambda σ R :=
  { scrutinee := do
      let the_type ← TYPE
      let _st : ScalarType := detail.scalar_type the_type
      pure _st
    cases :=
      [ AT_PRIVATE_CASE_TYPE ScalarType.Double CppType.double va_args,
        AT_PRIVATE_CASE_TYPE ScalarType.Float CppType.float va_args,
        AT_PRIVATE_CASE_TYPE ScalarType.ComplexDouble CppType.complex_double va_args,
        AT_PRIVATE_CASE_TYPE ScalarType.ComplexFloat CppType.complex_float va_args,
        AT_PRIVATE_CASE_TYPE SCALARTYPE1 (ScalarTypeToCPPType SCALARTYPE1) va_args,
        AT_PRIVATE_CASE_TYPE SCALARTYPE2 (ScalarTypeToCPPType SCALARTYPE2) va_args ]
    default := fun _st =>
      AT_ERROR
        [ StrArg.text (stringize NAME),
          StrArg.text " not implemented for '",
          StrArg.text (toString _st),
          StrArg.text "'" ] }

/-- Source lines 266-280. -/
def AT_DISPATCH_INTEGRAL_TYPES {σ R α : Type} [detail.ScalarTypeOverload α]
    (TYPE : Comp σ α) (NAME : NameArg)
    (va_args : Body σ R) : SwitchLambda σ R :=
  { scrutinee := do
      let the_type ← TYPE
      let _st : ScalarType := detail.scalar_type the_type
      pure _st
    cases :=
      [ AT_PRIVATE_CASE_TYPE ScalarType.Byte CppType.uint8_t va_args,
        AT_PRIVATE_CASE_TYPE ScalarType.Char CppType.int8_t va_args,
        AT_PRIVATE_CASE_TYPE ScalarType.Int CppType.int32_t va_args,
        AT_PRIVATE_CASE_TYPE ScalarType.Long CppType.int64_t va_args,
        AT_PRIVATE_CASE_TYPE ScalarType.Short CppType.int16_t va_args ]
    default := fun _st =>
      AT_ERROR
        [ StrArg.text (stringize NAME),
          StrArg.text " not implemented for '",
          StrArg.text (toString _st),
          StrArg.text "'" ] }

/-- Source lines 282-297: the switch is on `TYPE` itself, and the default branch
names `TYPE` again. -/
def AT_DISPATCH_INTEGRAL_TYPES_AND {σ R : Type}
    (SCALARTYPE : ScalarType) (TYPE : Comp σ ScalarType) (NAME : NameArg)
    (va_args : Body σ R) : SwitchLambda σ R :=
  { scrutinee := TYPE
    cases :=
      [ AT_PRIVATE_CASE_TYPE ScalarType.Byte CppType.uint8_t va_args,
        AT_PRIVATE_CASE_TYPE ScalarType.Char CppType.int8_t va_args,
        AT_PRIVATE_CASE_TYPE ScalarType.Int CppType.int32_t va_args,
        AT_PRIVATE_CASE_TYPE ScalarType.Long CppType.int64_t va_args,
        AT_PRIVATE_CASE_TYPE ScalarType.Short CppType.int16_t va_args,
        AT_PRIVATE_CASE_TYPE SCALARTYPE (ScalarTypeToCPPType SCALARTYPE) va_args ]
    default := fun _ => do
      let type ← TYPE
      AT_ERROR
        [ StrArg.text (stringize NAME),
          StrArg.text " not implemented for '",
          StrArg.text (toString type),
          StrArg.text "'" ] }

/-- Source lines 299-315. -/
def AT_DISPATCH_ALL_TYPES {σ R α : Type} [detail.ScalarTypeOverload α]
    (TYPE : Comp σ α) (NAME : NameArg)
    (va_args : Body σ R) : SwitchLambda σ R :=
  { scrutinee := do
      let the_type ← TYPE
      let _st : ScalarType := detail.scalar_type the_type
      pure _st
    cases :=
      [ AT_PRIVATE_CASE_TYPE ScalarType.Byte CppType.uint8_t va_args,
        AT_PRIVATE_CASE_TYPE ScalarType.Char CppType.int8_t va_args,
        AT_PRIVATE_CASE_TYPE ScalarType.Double CppType.double va_args,
        AT_PRIVATE_CASE_TYPE ScalarType.Float CppType.float va_args,
        AT_PRIVATE_CASE_TYPE ScalarType.Int CppType.int32_t va_args,
        AT_PRIVATE_CASE_TYPE ScalarType.Long CppType.int64_t va_args,
        AT_PRIVATE_CASE_TYPE ScalarType.Short CppType.int16_t va_args ]
    default := fun _st =>
      AT_ERROR
        [ StrArg.text (stringize NAME),
          StrArg.text " not implemented for '",
          StrArg.text (toString _st),
          StrArg.text "'" ] }

/-- Source lines 317-330. -/
def AT_DISPATCH_COMPLEX_TYPES {σ R α : Type} [detail.ScalarTypeOverload α]
    (TYPE : Comp σ α) (NAME : NameArg)
    (va_args : Body σ R) : SwitchLambda σ R :=
  { scrutinee := do
      let the_type ← TYPE
      let _st : ScalarType := detail.scalar_type the_type
      pure _st
    cases :=
      [ AT_PRIVATE_CASE_TYPE ScalarType.ComplexFloat CppType.complex_float va_args,
        AT_PRIVATE_CASE_TYPE ScalarType.ComplexDouble CppType.complex_double va_args ]
    default := fun _st =>
      AT_ERROR
        [ StrArg.text (stringize NAME),
          StrArg.text " not implemented for '",
          StrArg.text (toString _st),
          StrArg.text "'" ] }

/-- Source lines 332-347: the prologue reads `TYPE` once into `the_type`, and the
default branch names `TYPE` again (`toString(TYPE)`, declared for `at::ScalarType`). -/
def AT_DISPATCH_QINT_TYPES {σ R : Type}
    (TYPE : Comp σ ScalarType) (NAME : NameArg)
    (va_args : Body σ R) : SwitchLambda σ R :=
  { scrutinee := do
      let the_type ← TYPE
      let _st : ScalarType := detail.scalar_type the_type
      pure _st
    cases :=
      [ AT_QINT_PRIVATE_CASE_TYPE kQInt8 CppType.qint8 kChar CppType.int8_t va_args,
        AT_QINT_PRIVATE_CASE_TYPE kQUInt8 CppType.quint8 kByte CppType.uint8_t va_args,
        AT_QINT_PRIVATE_CASE_TYPE kQInt32 CppType.qint32 kInt CppType.int va_args ]
    default := fun _ => do
      let type ← TYPE
      AT_ERROR
        [ StrArg.text (stringize NAME),
          StrArg.text " not implemented for '",
          StrArg.text (toString type),
          StrArg.text "'" ] }

/-- Source lines 349-369. -/
def AT_DISPATCH_ALL_TYPES_AND_COMPLEX {σ R α : Type} [detail.ScalarTypeOverload α]
    (TYPE : Comp σ α) (NAME : NameArg)
    (va_args : Body σ R) : SwitchLambda σ R :=
  { scrutinee := do
      let the_type ← TYPE
      let _st : ScalarType := detail.scalar_type the_type
      pure _st
    cases :=
      [ AT_PRIVATE_CASE_TYPE ScalarType.Byte CppType.uint8_t va_args,
        AT_PRIVATE_CASE_TYPE ScalarType.Char CppType.int8_t va_args,
        AT_PRIVATE_CASE_TYPE ScalarType.Double CppType.double va_args,
        AT_PRIVATE_CASE_TYPE ScalarType.Float CppType.float va_args,
        AT_PRIVATE_CASE_TYPE ScalarType.Int CppType.int32_t va_args,
        AT_PRIVATE_CASE_TYPE ScalarType.Long CppType.int64_t va_args,
        AT_PRIVATE_CASE_TYPE ScalarType.Short CppType.int16_t va_args,
        AT_PRIVATE_CASE_TYPE ScalarType.ComplexFloat CppType.complex_float va_args,
        AT_PRIVATE_CASE_TYPE ScalarType.ComplexDouble CppType.complex_double va_args ]
    default := fun _st =>
      AT_ERROR
        [ StrArg.text (stringize NAME),
          StrArg.text " not implemented for '",
          StrArg.text (toString _st),
          StrArg.text "'" ] }

/-- Source lines 371-388: the switch is on `TYPE` itself, and the default branch
names `TYPE` again. -/
def AT_DISPATCH_ALL_TYPES_AND {σ R : Type}
    (SCALARTYPE : ScalarType) (TYPE : Comp σ ScalarType) (NAME : NameArg)
    (va_args : Body σ R) : SwitchLambda σ R :=
  { scrutinee := TYPE
    cases :=
      [ AT_PRIVATE_CASE_TYPE ScalarType.Byte CppType.uint8_t va_args,
        AT_PRIVATE_CASE_TYPE ScalarType.Char CppType.int8_t va_args,
        AT_PRIVATE_CASE_TYPE ScalarType.Double CppType.double va_args,
        AT_PRIVATE_CASE_TYPE ScalarType.Float CppType.float va_args,
        AT_PRIVATE_CASE_TYPE ScalarType.Int CppType.int32_t va_args,
        AT_PRIVATE_CASE_TYPE ScalarType.Long CppType.int64_t va_args,
        AT_PRIVATE_CASE_TYPE ScalarType.Short CppType.int16_t va_args,
        AT_PRIVATE_CASE_TYPE SCALARTYPE (ScalarTypeToCPPType SCALARTYPE) va_args ]
    default := fun _ => do
      let type ← TYPE
      AT_ERROR
        [ StrArg.text (stringize NAME),
          StrArg.text " not implemented for '",
          StrArg.text (toString type),
          StrArg.text "'" ] }

/-- Source lines 390-411: the switch is on `TYPE` itself, and the default branch
names `TYPE` again. -/
def AT_DISPATCH_ALL_TYPES_AND_COMPLEX_AND {σ R : Type}
    (SCALARTYPE : ScalarType) (TYPE : Comp σ ScalarType) (NAME : NameArg)
    (va_args : Body σ R) : SwitchLambda σ R :=
  { scrutinee := TYPE
    cases :=
      [ AT_PRIVATE_CASE_TYPE ScalarType.Byte CppType.uint8_t va_args,
        AT_PRIVATE_CASE_TYPE ScalarType.Char CppType.int8_t va_args,
        AT_PRIVATE_CASE_TYPE ScalarType.Double CppType.double va_args,
        AT_PRIVATE_CASE_TYPE ScalarType.Float CppType.float va_args,
        AT_PRIVATE_CASE_TYPE ScalarType.Int CppType.int32_t va_args,
        AT_PRIVATE_CASE_TYPE ScalarType.Long CppType.int64_t va_args,
        AT_PRIVATE_CASE_TYPE ScalarType.Short CppType.int16_t va_args,
        AT_PRIVATE_CASE_TYPE ScalarType.ComplexFloat CppType.complex_float va_args,
        AT_PRIVATE_CASE_TYPE ScalarType.ComplexDouble CppType.complex_double va_args,
        AT_PRIVATE_CASE_TYPE SCALARTYPE (ScalarTypeToCPPType SCALARTYPE) va_args ]
    default := fun _ => do
      let type ← TYPE
      AT_ERROR
        [ StrArg.text (stringize NAME),
          StrArg.text " not implemented for '",
          StrArg.text (toString type),
          StrArg.text "'" ] }

/-- Source lines 413-434: the switch is on `TYPE` itself, and the default branch
names `TYPE` again. -/
def AT_DISPATCH_ALL_TYPES_AND2 {σ R : Type}
    (SCALARTYPE1 SCALARTYPE2 : ScalarType) (TYPE : Comp σ ScalarType) (NAME : NameArg)
    (va_args : Body σ R) : SwitchLambda σ R :=
  { scrutinee := TYPE
    cases :=
      [ AT_PRIVATE_CASE_TYPE ScalarType.Byte CppType.uint8_t va_args,
        AT_PRIVATE_CASE_TYPE ScalarType.Char CppType.int8_t va_args,
        AT_PRIVATE_CASE_TYPE ScalarType.Double CppType.double va_args,
        AT_PRIVATE_CASE_TYPE ScalarType.Float CppType.float va_args,
        AT_PRIVATE_CASE_TYPE ScalarType.Int CppType.int32_t va_args,
        AT_PRIVATE_CASE_TYPE ScalarType.Long CppType.int64_t va_args,
        AT_PRIVATE_CASE_TYPE ScalarType.Short CppType.int16_t va_args,
        AT_PRIVATE_CASE_TYPE SCALARTYPE1 (ScalarTypeToCPPType SCALARTYPE1) va_args,
        AT_PRIVATE_CASE_TYPE SCALARTYPE2 (ScalarTypeToCPPType SCALARTYPE2) va_args ]
    default := fun _ => do
      let type ← TYPE
      AT_ERROR
        [ StrArg.text (stringize NAME),
          StrArg.text " not implemented for '",
          StrArg.text (toString type),
          StrArg.text "'" ] }

/-- Source lines 436-462: the switch is on `TYPE` itself, and the default branch
names `TYPE` again;
the tag itself, not its display name, is handed to `AT_ERROR`. -/
def AT_DISPATCH_ALL_TYPES_AND_COMPLEX_AND2 {σ R : Type}
    (SCALARTYPE1 SCALARTYPE2 : ScalarType) (TYPE : Comp σ ScalarType) (NAME : NameArg)
    (va_args : Body σ R) : SwitchLambda σ R :=
  { scrutinee := TYPE
    cases :=
      [ AT_PRIVATE_CASE_TYPE ScalarType.Byte CppType.uint8_t va_args,
        AT_PRIVATE_CASE_TYPE ScalarType.Char CppType.int8_t va_args,
        AT_PRIVATE_CASE_TYPE ScalarType.Double CppType.double va_args,
        AT_PRIVATE_CASE_TYPE ScalarType.Float CppType.float va_args,
        AT_PRIVATE_CASE_TYPE ScalarType.Int CppType.int32_t va_args,
        AT_PRIVATE_CASE_TYPE ScalarType.Long CppType.int64_t va_args,
        AT_PRIVATE_CASE_TYPE ScalarType.Short CppType.int16_t va_args,
        AT_PRIVATE_CASE_TYPE ScalarType.ComplexFloat CppType.complex_float va_args,
        AT_PRIVATE_CASE_TYPE ScalarType.ComplexDouble CppType.complex_double va_args,
        AT_PRIVATE_CASE_TYPE SCALARTYPE1 (ScalarTypeToCPPType SCALARTYPE1) va_args,
        AT_PRIVATE_CASE_TYPE SCALARTYPE2 (ScalarTypeToCPPType SCALARTYPE2) va_args ]
    default := fun _ => do
      let type ← TYPE
      AT_ERROR
        [ StrArg.text (stringize NAME),
          StrArg.text " not implemented for '",
          StrArg.scalarType type,
          StrArg.text "'" ] }

/-- Source lines 464-490: the switch is on `TYPE` itself, and the default branch
names `TYPE` again. -/
def AT_DISPATCH_ALL_TYPES_AND3 {σ R : Type}
    (SCALARTYPE1 SCALARTYPE2 SCALARTYPE3 : ScalarType) (TYPE : Comp σ ScalarType) (NAME : NameArg)
    (va_args : Body σ R) : SwitchLambda σ R :=
  { scrutinee := TYPE
    cases :=
      [ AT_PRIVATE_CASE_TYPE ScalarType.Byte CppType.uint8_t va_args,
        AT_PRIVATE_CASE_TYPE ScalarType.Char CppType.int8_t va_args,
        AT_PRIVATE_CASE_TYPE ScalarType.Double CppType.double va_args,
        AT_PRIVATE_CASE_TYPE ScalarType.Float CppType.float va_args,
        AT_PRIVATE_CASE_TYPE ScalarType.Int CppType.int32_t va_args,
        AT_PRIVATE_CASE_TYPE ScalarType.Long CppType.int64_t va_args,
        AT_PRIVATE_CASE_TYPE ScalarType.Short CppType.int16_t va_args,
        AT_PRIVATE_CASE_TYPE SCALARTYPE1 (ScalarTypeToCPPType SCALARTYPE1) va_args,
        AT_PRIVATE_CASE_TYPE SCALARTYPE2 (ScalarTypeToCPPType SCALARTYPE2) va_args,
        AT_PRIVATE_CASE_TYPE SCALARTYPE3 (ScalarTypeToCPPType SCALARTYPE3) va_args ]
    default := fun _ => do
      let type ← TYPE
      AT_ERROR
        [ StrArg.text (stringize NAME),
          StrArg.text " not implemented for '",
          StrArg.text (toString type),
          StrArg.text "'" ] }

/-- Source lines 492-522: the switch is on `TYPE` itself, and the default branch
names `TYPE` again;
the tag itself, not its display name, is handed to `AT_ERROR`. -/
def AT_DISPATCH_ALL_TYPES_AND_COMPLEX_AND3 {σ R : Type}
    (SCALARTYPE1 SCALARTYPE2 SCALARTYPE3 : ScalarType) (TYPE : Comp σ ScalarType) (NAME : NameArg)
    (va_args : Body σ R) : SwitchLambda σ R :=
  { scrutinee := TYPE
    cases :=
      [ AT_PRIVATE_CASE_TYPE ScalarType.Byte CppType.uint8_t va_args,
        AT_PRIVATE_CASE_TYPE ScalarType.Char CppType.int8_t va_args,
        AT_PRIVATE_CASE_TYPE ScalarType.Double CppType.double va_args,
        AT_PRIVATE_CASE_TYPE ScalarType.Float CppType.float va_args,
        AT_PRIVATE_CASE_TYPE ScalarType.Int CppType.int32_t va_args,
        AT_PRIVATE_CASE_TYPE ScalarType.Long CppType.int64_t va_args,
        AT_PRIVATE_CASE_TYPE ScalarType.Short CppType.int16_t va_args,
        AT_PRIVATE_CASE_TYPE ScalarType.ComplexFloat CppType.complex_float va_args,
        AT_PRIVATE_CASE_TYPE ScalarType.ComplexDouble CppType.complex_double va_args,
        AT_PRIVATE_CASE_TYPE SCALARTYPE1 (ScalarTypeToCPPType SCALARTYPE1) va_args,
        AT_PRIVATE_CASE_TYPE SCALARTYPE2 (ScalarTypeToCPPType SCALARTYPE2) va_args,
        AT_PRIVATE_CASE_TYPE SCALARTYPE3 (ScalarTypeToCPPType SCALARTYPE3) va_args ]
    default := fun _ => do
      let type ← TYPE
      AT_ERROR
        [ StrArg.text (stringize NAME),
          StrArg.text " not implemented for '",
          StrArg.scalarType type,
          StrArg.text "'" ] }

/-- Source lines 528-546. -/
def AT_DISPATCH_ALL_TYPES_AND_HALF {σ R α : Type} [detail.ScalarTypeOverload α]
    (TYPE : Comp σ α) (NAME : NameArg)
    (va_args : Body σ R) : SwitchLambda σ R :=
  { scrutinee := do
      detail.deprecated_AT_DISPATCH_ALL_TYPES_AND_HALF
      let the_type ← TYPE
      let _st : ScalarType := detail.scalar_type the_type
      pure _st
    cases :=
      [ AT_PRIVATE_CASE_TYPE ScalarType.Byte CppType.uint8_t va_args,
        AT_PRIVATE_CASE_TYPE ScalarType.Char CppType.int8_t va_args,
        AT_PRIVATE_CASE_TYPE ScalarType.Double CppType.double va_args,
        AT_PRIVATE_CASE_TYPE ScalarType.Float CppType.float va_args,
        AT_PRIVATE_CASE_TYPE ScalarType.Int CppType.int32_t va_args,
        AT_PRIVATE_CASE_TYPE ScalarType.Long CppType.int64_t va_args,
        AT_PRIVATE_CASE_TYPE ScalarType.Short CppType.int16_t va_args,
        AT_PRIVATE_CASE_TYPE ScalarType.Half CppType.Half va_args ]
    default := fun _st =>
      AT_ERROR
        [ StrArg.text (stringize NAME),
          StrArg.text " not implemented for '",
          StrArg.text (toString _st),
          StrArg.text "'" ] }

/-! ## The family as a whole -/

/-- One constructor per `AT_DISPATCH_*` definition of `Dispatch.h`, with the extra tags of
the `..._AND` variants as arguments. -/
inductive Profile
  | FLOATING_TYPES
  | FLOATING_TYPES_AND_HALF
  | FLOATING_TYPES_AND (SCALARTYPE : ScalarType)
  | FLOATING_TYPES_AND2 (SCALARTYPE1 SCALARTYPE2 : ScalarType)
  | FLOATING_AND_COMPLEX_TYPES
  | FLOATING_AND_COMPLEX_TYPES_AND1 (SCALARTYPE : ScalarType)
  | FLOATING_AND_COMPLEX_TYPES_AND2 (SCALARTYPE1 SCALARTYPE2 : ScalarType)
  | INTEGRAL_TYPES
  | INTEGRAL_TYPES_AND (SCALARTYPE : ScalarType)
  | ALL_TYPES
  | COMPLEX_TYPES
  | QINT_TYPES
  | ALL_TYPES_AND_COMPLEX
  | ALL_TYPES_AND (SCALARTYPE : ScalarType)
  | ALL_TYPES_AND_COMPLEX_AND (SCALARTYPE : ScalarType)
  | ALL_TYPES_AND2 (SCALARTYPE1 SCALARTYPE2 : ScalarType)
  | ALL_TYPES_AND_COMPLEX_AND2 (SCALARTYPE1 SCALARTYPE2 : ScalarType)
  | ALL_TYPES_AND3 (SCALARTYPE1 SCALARTYPE2 SCALARTYPE3 : ScalarType)
  | ALL_TYPES_AND_COMPLEX_AND3 (SCALARTYPE1 SCALARTYPE2 SCALARTYPE3 : ScalarType)
  | ALL_TYPES_AND_HALF
  deriving DecidableEq

/-- The lambda a use of the profile expands to, for a tag expression of type
`at::ScalarType`. -/
def Profile.expand {σ R : Type} (p : Profile) (TYPE : Comp σ ScalarType) (NAME : NameArg)
    (va_args : Body σ R) : SwitchLambda σ R :=
  match p with
  | Profile.FLOATING_TYPES => AT_DISPATCH_FLOATING_TYPES TYPE NAME va_args
  | Profile.FLOATING_TYPES_AND_HALF => AT_DISPATCH_FLOATING_TYPES_AND_HALF TYPE NAME va_args
  | Profile.FLOATING_TYPES_AND x => AT_DISPATCH_FLOATING_TYPES_AND x TYPE NAME va_args
  | Profile.FLOATING_TYPES_AND2 x y => AT_DISPATCH_FLOATING_TYPES_AND2 x y TYPE NAME va_args
  | Profile.FLOATING_AND_COMPLEX_TYPES =>
      AT_DISPATCH_FLOATING_AND_COMPLEX_TYPES TYPE NAME va_args
  | Profile.FLOATING_AND_COMPLEX_TYPES_AND1 x =>
      AT_DISPATCH_FLOATING_AND_COMPLEX_TYPES_AND1 x TYPE NAME va_args
  | Profile.FLOATING_AND_COMPLEX_TYPES_AND2 x y =>
      AT_DISPATCH_FLOATING_AND_COMPLEX_TYPES_AND2 x y TYPE NAME va_args
  | Profile.INTEGRAL_TYPES => AT_DISPATCH_INTEGRAL_TYPES TYPE NAME va_args
  | Profile.INTEGRAL_TYPES_AND x => AT_DISPATCH_INTEGRAL_TYPES_AND x TYPE NAME va_args
  | Profile.ALL_TYPES => AT_DISPATCH_ALL_TYPES TYPE NAME va_args
  | Profile.COMPLEX_TYPES => AT_DISPATCH_COMPLEX_TYPES TYPE NAME va_args
  | Profile.QINT_TYPES => AT_DISPATCH_QINT_TYPES TYPE NAME va_args
  | Profile.ALL_TYPES_AND_COMPLEX => AT_DISPATCH_ALL_TYPES_AND_COMPLEX TYPE NAME va_args
  | Profile.ALL_TYPES_AND x => AT_DISPATCH_ALL_TYPES_AND x TYPE NAME va_args
  | Profile.ALL_TYPES_AND_COMPLEX_AND x =>
      AT_DISPATCH_ALL_TYPES_AND_COMPLEX_AND x TYPE NAME va_args
  | Profile.ALL_TYPES_AND2 x y => AT_DISPATCH_ALL_TYPES_AND2 x y TYPE NAME va_args
  | Profile.ALL_TYPES_AND_COMPLEX_AND2 x y =>
      AT_DISPATCH_ALL_TYPES_AND_COMPLEX_AND2 x y TYPE NAME va_args
  | Profile.ALL_TYPES_AND3 x y z => AT_DISPATCH_ALL_TYPES_AND3 x y z TYPE NAME va_args
  | Profile.ALL_TYPES_AND_COMPLEX_AND3 x y z =>
      AT_DISPATCH_ALL_TYPES_AND_COMPLEX_AND3 x y z TYPE NAME va_args
  | Profile.ALL_TYPES_AND_HALF => AT_DISPATCH_ALL_TYPES_AND_HALF TYPE NAME va_args

/-- A dispatch: the expansion of the profile, invoked. -/
def dispatch {σ R : Type} (p : Profile) (TYPE : Comp σ ScalarType) (NAME : NameArg)
    (va_args : Body σ R) : Comp σ R :=
  (p.expand TYPE NAME va_args).invoke

/-- The tags a profile binds: the case labels of its switch, in source order.  They do not
depend on the tag expression, the name or the body, so they are read off an expansion at
trivial arguments. -/
def Profile.caseLabels (p : Profile) : List ScalarType :=
  (p.expand (Comp.pure ScalarType.Byte : Comp Unit ScalarType) (NameArg.token "")
    (fun _ => (Comp.pure () : Comp Unit Unit))).labels

/-- A tag expression that counts its evaluations in the state and always yields `t`. -/
def countingTag (t : ScalarType) : Comp Nat ScalarType := fun n => (Except.ok t, n + 1)

/-- The names a plain case block for tag `t` declares when it binds the registry's
representation of `t`. -/
def plainDecls (t : ScalarType) : Bindings :=
  { scalar_t := ScalarTypeToCPPType t }

/-- The names a quantized case block for tag `t` declares. -/
def qintDecls (t : ScalarType) : Bindings :=
  { scalar_t := ScalarTypeToCPPType t
    underlying_t := (ScalarTypeToCPPType t).underlying
    SCALAR_TYPE := some t
    UNDERLYING_TYPE := some (toUnderlying t) }

/-- The names the body sees when profile `p` dispatches on a tag `t` it binds. -/
def Profile.decls (p : Profile) (t : ScalarType) : Bindings :=
  match p with
  | Profile.QINT_TYPES => qintDecls t
  | _ => plainDecls t

/-- The operation name a `NAME` argument stands for: the characters of the string literal,
or the token itself. -/
def NameArg.operationName : NameArg → String
  | NameArg.stringLiteral chars => chars
  | NameArg.token spelling => spelling

/-- A tag expression with a side effect on what it yields: `Bool` the first time it is
evaluated, `Float` from then on; the state counts the evaluations. -/
def changingTag : Comp Nat ScalarType := fun n =>
  (Except.ok (if n = 0 then ScalarType.Bool else ScalarType.Float), n + 1)

/-- What the compiler makes of the lambda.  A switch in which two case labels have the same
value is ill-formed (C++ [stmt.switch]): the translation unit is rejected and there is no
program to run.  Otherwise the program is the invocation of the lambda. -/
def SwitchLambda.compile {σ R : Type} (l : SwitchLambda σ R) : Option (Comp σ R) :=
  if l.wellFormed then some l.invoke else none

/-- A tag expression that yields `t` and counts its evaluations in the first component of
the state. -/
def tagCounter (t : ScalarType) : Comp (Nat × Nat) ScalarType := fun c =>
  (Except.ok t, (c.1 + 1, c.2))

/-- A body that returns the type it is instantiated at and counts its invocations in the
second component of the state. -/
def bodyCounter : Body (Nat × Nat) CppType := fun b c =>
  (Except.ok b.scalar_t, (c.1, c.2 + 1))

/-! ## General facts about the embedding -/

theorem Comp.bind_pure_id {σ A : Type} (c : Comp σ A) :
    Comp.bind c (fun a => Comp.pure a) = c := by
  funext s
  unfold Comp.bind Comp.pure
  rcases h : c s with ⟨r, s1⟩
  cases r <;> rfl

theorem switch_hit {σ R : Type} (B : ScalarType → Bindings) (f : Body σ R) (v : ScalarType)
    (cs : List (Case σ R)) (dflt : Comp σ R)
    (hinv : ∀ c ∈ cs, c.ret = f c.decls ∧ c.decls = B c.enum_type)
    (hv : v ∈ cs.map Case.enum_type) : switch v cs dflt = f (B v) := by
  induction cs with
  | nil => simp at hv
  | cons c cs ih =>
    unfold switch
    by_cases hc : c.enum_type = v
    · rw [if_pos hc]
      have h := hinv c (List.mem_cons_self c cs)
      rw [h.1, h.2, hc]
    · rw [if_neg hc]
      apply ih
      · intro d hd
        exact hinv d (List.mem_cons_of_mem c hd)
      · simp only [List.map_cons, List.mem_cons] at hv
        rcases hv with hv | hv
        · exact absurd hv.symm hc
        · exact hv

theorem switch_miss {σ R : Type} (v : ScalarType) (cs : List (Case σ R)) (dflt : Comp σ R)
    (hv : v ∉ cs.map Case.enum_type) : switch v cs dflt = dflt := by
  induction cs with
  | nil => rfl
  | cons c cs ih =>
    simp only [List.map_cons, List.mem_cons, not_or] at hv
    unfold switch
    rw [if_neg (fun h => hv.1 h.symm)]
    exact ih hv.2

theorem labels_expand {σ R : Type} (p : Profile) (TYPE : Comp σ ScalarType) (NAME : NameArg)
    (f : Body σ R) : (p.expand TYPE NAME f).labels = p.caseLabels := by
  cases p <;> rfl

theorem scrutinee_expand {σ R : Type} (p : Profile) (TYPE : Comp σ ScalarType)
    (NAME : NameArg) (f : Body σ R) (s : σ) :
    (p.expand TYPE NAME f).scrutinee s = TYPE s := by
  cases p <;> first | rfl | exact congrFun (Comp.bind_pure_id TYPE) s

theorem dispatch_of_eval {σ R : Type} (p : Profile) (TYPE : Comp σ ScalarType)
    (NAME : NameArg) (f : Body σ R) (s s1 : σ) (t : ScalarType)
    (h : TYPE s = (Except.ok t, s1)) :
    dispatch p TYPE NAME f s
      = switch t (p.expand TYPE NAME f).cases ((p.expand TYPE NAME f).default t) s1 := by
  have hs := scrutinee_expand p TYPE NAME f s
  show Comp.bind (p.expand TYPE NAME f).scrutinee _ s = _
  unfold Comp.bind
  rw [hs, h]

theorem cases_expand {σ R : Type} (p : Profile) (TYPE : Comp σ ScalarType) (NAME : NameArg)
    (f : Body σ R) :
    ∀ c ∈ (p.expand TYPE NAME f).cases, c.ret = f c.decls ∧ c.decls = p.decls c.enum_type := by
  cases p <;>
    simp [Profile.expand, Profile.decls, plainDecls, qintDecls, AT_PRIVATE_CASE_TYPE,
      AT_QINT_PRIVATE_CASE_TYPE, ScalarTypeToCPPType, toUnderlying,
      AT_DISPATCH_FLOATING_TYPES, AT_DISPATCH_FLOATING_TYPES_AND_HALF,
      AT_DISPATCH_FLOATING_TYPES_AND, AT_DISPATCH_FLOATING_TYPES_AND2,
      AT_DISPATCH_FLOATING_AND_COMPLEX_TYPES, AT_DISPATCH_FLOATING_AND_COMPLEX_TYPES_AND1,
      AT_DISPATCH_FLOATING_AND_COMPLEX_TYPES_AND2, AT_DISPATCH_INTEGRAL_TYPES,
      AT_DISPATCH_INTEGRAL_TYPES_AND, AT_DISPATCH_ALL_TYPES, AT_DISPATCH_COMPLEX_TYPES,
      AT_DISPATCH_QINT_TYPES, AT_DISPATCH_ALL_TYPES_AND_COMPLEX, AT_DISPATCH_ALL_TYPES_AND,
      AT_DISPATCH_ALL_TYPES_AND_COMPLEX_AND, AT_DISPATCH_ALL_TYPES_AND2,
      AT_DISPATCH_ALL_TYPES_AND_COMPLEX_AND2, AT_DISPATCH_ALL_TYPES_AND3,
      AT_DISPATCH_ALL_TYPES_AND_COMPLEX_AND3, AT_DISPATCH_ALL_TYPES_AND_HALF]

theorem dispatch_bound {σ R : Type} (p : Profile) (TYPE : Comp σ ScalarType)
    (NAME : NameArg) (f : Body σ R) (s s1 : σ) (t : ScalarType)
    (h : TYPE s = (Except.ok t, s1)) (ht : t ∈ p.caseLabels) :
    dispatch p TYPE NAME f s = f (p.decls t) s1 := by
  rw [dispatch_of_eval p TYPE NAME f s s1 t h]
  rw [switch_hit p.decls f t _ _ (cases_expand p TYPE NAME f)
    (by rw [← labels_expand p TYPE NAME f] at ht; exact ht)]

theorem c10_str_report (a b : String) :
    c10_str [StrArg.text a, StrArg.text " not implemented for '", StrArg.text b,
      StrArg.text "'"] = (UnsupportedType a b).msg := by
  simp [c10_str, StrArg.render, UnsupportedType]

theorem c10_str_report_tag (a : String) (t : ScalarType) :
    c10_str [StrArg.text a, StrArg.text " not implemented for '", StrArg.scalarType t,
      StrArg.text "'"] = (UnsupportedType a (toString t)).msg := by
  simp [c10_str, StrArg.render, UnsupportedType]

theorem default_expand_pure {σ R : Type} (p : Profile) (t : ScalarType) (NAME : NameArg)
    (f : Body σ R) (s : σ) :
    (p.expand (Comp.pure t) NAME f).default t s
      = (Except.error (UnsupportedType (stringize NAME) (toString t)), s) := by
  cases p <;> simp [Profile.expand, AT_ERROR, c10_str_report, c10_str_report_tag,
      bind, Comp.bind, Comp.pure,
      AT_DISPATCH_FLOATING_TYPES, AT_DISPATCH_FLOATING_TYPES_AND_HALF,
      AT_DISPATCH_FLOATING_TYPES_AND, AT_DISPATCH_FLOATING_TYPES_AND2,
      AT_DISPATCH_FLOATING_AND_COMPLEX_TYPES, AT_DISPATCH_FLOATING_AND_COMPLEX_TYPES_AND1,
      AT_DISPATCH_FLOATING_AND_COMPLEX_TYPES_AND2, AT_DISPATCH_INTEGRAL_TYPES,
      AT_DISPATCH_INTEGRAL_TYPES_AND, AT_DISPATCH_ALL_TYPES, AT_DISPATCH_COMPLEX_TYPES,
      AT_DISPATCH_QINT_TYPES, AT_DISPATCH_ALL_TYPES_AND_COMPLEX, AT_DISPATCH_ALL_TYPES_AND,
      AT_DISPATCH_ALL_TYPES_AND_COMPLEX_AND, AT_DISPATCH_ALL_TYPES_AND2,
      AT_DISPATCH_ALL_TYPES_AND_COMPLEX_AND2, AT_DISPATCH_ALL_TYPES_AND3,
      AT_DISPATCH_ALL_TYPES_AND_COMPLEX_AND3, AT_DISPATCH_ALL_TYPES_AND_HALF]

theorem dispatch_unbound {σ R : Type} (p : Profile) (t : ScalarType) (NAME : NameArg)
    (f : Body σ R) (s : σ) (ht : t ∉ p.caseLabels) :
    dispatch p (Comp.pure t) NAME f s
      = (Except.error (UnsupportedType (stringize NAME) (toString t)), s) := by
  rw [dispatch_of_eval p (Comp.pure t) NAME f s s t rfl]
  rw [switch_miss t _ _ (by rw [← labels_expand p (Comp.pure t) NAME f] at ht; exact ht)]
  exact default_expand_pure p t NAME f s

theorem default_expand_body {σ R : Type} (p : Profile) (TYPE : Comp σ ScalarType)
    (NAME : NameArg) (f g : Body σ R) :
    (p.expand TYPE NAME f).default = (p.expand TYPE NAME g).default := by
  cases p <;> rfl

theorem dispatch_congr_labels {σ R : Type} (p q : Profile) (t : ScalarType)
    (hl : t ∈ p.caseLabels ↔ t ∈ q.caseLabels) (hd : p.decls t = q.decls t)
    (NAME : NameArg) (f : Body σ R) (s : σ) :
    dispatch p (Comp.pure t) NAME f s = dispatch q (Comp.pure t) NAME f s := by
  by_cases ht : t ∈ p.caseLabels
  · rw [dispatch_bound p (Comp.pure t) NAME f s s t rfl ht,
      dispatch_bound q (Comp.pure t) NAME f s s t rfl (hl.1 ht), hd]
  · rw [dispatch_unbound p t NAME f s ht,
      dispatch_unbound q t NAME f s (fun h => ht (hl.2 h))]

theorem error_msg_ne {σ R : Type} (a b : String) (s : σ) (h : a ≠ b) :
    ((Except.error { msg := a }, s) : Outcome σ R) ≠ (Except.error { msg := b }, s) := by
  intro e
  have h1 := congrArg Prod.fst e
  injection h1 with h2
  injection h2 with h3
  exact h h3

/-! ## The claims -/

/-- C1: for every profile and every tag `t` among its case labels, a dispatch whose tag
expression yields `t` runs the body with `scalar_t` bound to the registry's representation
of `t` and hands back the body's outcome unchanged (its result and its effects, from the
state the tag expression left).  In particular `AT_DISPATCH_FLOATING_TYPES` binds tag
`Double` to `double`, 8 bytes wide, and tag `Float` to `float`, 4 bytes wide. -/
theorem C1_bound_tag_runs_body (p : Profile) (t : ScalarType) (ht : t ∈ p.caseLabels) :
    (∃ b : Bindings, b.scalar_t = ScalarTypeToCPPType t ∧
      ∀ (σ R : Type) (TYPE : Comp σ ScalarType) (NAME : NameArg) (body : Body σ R)
        (s s1 : σ), TYPE s = (Except.ok t, s1) →
          dispatch p TYPE NAME body s = body b s1)
    ∧ (∀ (σ R : Type) (NAME : NameArg) (body : Body σ R) (s : σ),
        (AT_DISPATCH_FLOATING_TYPES (Comp.pure ScalarType.Double : Comp σ ScalarType) NAME
            body).invoke s = body { scalar_t := CppType.double } s
        ∧ (AT_DISPATCH_FLOATING_TYPES (Comp.pure ScalarType.Float : Comp σ ScalarType) NAME
            body).invoke s = body { scalar_t := CppType.float } s)
    ∧ CppType.double.sizeof = 8 ∧ CppType.double.category = Category.floating
    ∧ CppType.float.sizeof = 4 ∧ CppType.float.category = Category.floating := by
  refine ⟨⟨p.decls t, ?_, ?_⟩, ?_, rfl, rfl, rfl, rfl⟩
  · cases p <;> rfl
  · intro σ R TYPE NAME body s s1 h
    exact dispatch_bound p TYPE NAME body s s1 t h ht
  · intro σ R NAME body s
    exact ⟨rfl, rfl⟩

/-- C1, used: `AT_DISPATCH_ALL_TYPES_AND(Bool, ...)` on a counting tag expression that yields
`Bool` runs the body once with `scalar_t = bool`, after one evaluation of the tag. -/
theorem C1_bound_tag_runs_body_witness :
    ScalarType.Bool ∈ (Profile.ALL_TYPES_AND ScalarType.Bool).caseLabels
    ∧ dispatch (Profile.ALL_TYPES_AND ScalarType.Bool) (countingTag ScalarType.Bool)
        (NameArg.stringLiteral "op") (fun b => Comp.pure b.scalar_t) 0
      = (Except.ok CppType.bool, 1) := by
  refine ⟨by decide, ?_⟩
  obtain ⟨⟨b, hb, h⟩, _⟩ :=
    C1_bound_tag_runs_body (Profile.ALL_TYPES_AND ScalarType.Bool) ScalarType.Bool (by decide)
  rw [h Nat CppType (countingTag ScalarType.Bool) (NameArg.stringLiteral "op")
    (fun b => Comp.pure b.scalar_t) 0 1 rfl]
  show (Except.ok b.scalar_t, 1) = _
  rw [hb]
  rfl

/-- C2, refuted as stated: with the operation name `bitwise_and` passed the documented way,
as the string literal `"bitwise_and"`, `AT_DISPATCH_INTEGRAL_TYPES` on the unbound tag
`Float` does not fail with the reporter's error for the operation name `bitwise_and`: the
name component of the error is the name between double quotes. -/
theorem C2_counterexample :
    (NameArg.stringLiteral "bitwise_and").operationName = "bitwise_and"
    ∧ ScalarType.Float ∉ Profile.INTEGRAL_TYPES.caseLabels
    ∧ (AT_DISPATCH_INTEGRAL_TYPES (Comp.pure ScalarType.Float : Comp Unit ScalarType)
          (NameArg.stringLiteral "bitwise_and")
          (fun _ => (Comp.pure () : Comp Unit Unit))).invoke ()
        = (Except.error (UnsupportedType "\"bitwise_and\"" "Float"), ())
    ∧ (AT_DISPATCH_INTEGRAL_TYPES (Comp.pure ScalarType.Float : Comp Unit ScalarType)
          (NameArg.stringLiteral "bitwise_and")
          (fun _ => (Comp.pure () : Comp Unit Unit))).invoke ()
        ≠ (Except.error
            (UnsupportedType (NameArg.stringLiteral "bitwise_and").operationName
              (toString ScalarType.Float)), ()) :=
  ⟨rfl, by decide, rfl,
    error_msg_ne "\"bitwise_and\" not implemented for 'Float'"
      "bitwise_and not implemented for 'Float'" () (by decide)⟩

/-- C2, amended: for every profile, every `NAME` and every tag `t` that is not among the
profile's case labels, dispatching on `t` throws the error the reporter builds from the
stringified `NAME` argument and the display name of `t`, leaves the state untouched, and the
outcome is the same whatever the body is: the body is not run and no other representation
is chosen (the second part says so for effectful tag expressions as well).  The name
component is the operation name itself when it is passed as a bare token, and the operation
name between double quotes when it is passed as a string literal. -/
theorem C2_unbound_tag_fails (p : Profile) (t : ScalarType) (ht : t ∉ p.caseLabels)
    (σ R : Type) (NAME : NameArg) (body : Body σ R) (s : σ) :
    dispatch p (Comp.pure t) NAME body s
        = (Except.error (UnsupportedType (stringize NAME) (toString t)), s)
    ∧ (∀ (TYPE : Comp σ ScalarType) (s1 : σ) (other : Body σ R),
        TYPE s = (Except.ok t, s1) →
          dispatch p TYPE NAME body s = dispatch p TYPE NAME other s)
    ∧ (∀ op : String,
        dispatch p (Comp.pure t) (NameArg.token op) body s
          = (Except.error (UnsupportedType op (toString t)), s))
    ∧ (∀ op : String,
        dispatch p (Comp.pure t) (NameArg.stringLiteral op) body s
          = (Except.error (UnsupportedType ("\"" ++ op ++ "\"") (toString t)), s)) := by
  refine ⟨dispatch_unbound p t NAME body s ht, ?_,
    fun op => dispatch_unbound p t (NameArg.token op) body s ht,
    fun op => dispatch_unbound p t (NameArg.stringLiteral op) body s ht⟩
  intro TYPE s1 other h
  have hl : ∀ f : Body σ R, t ∉ (p.expand TYPE NAME f).cases.map Case.enum_type := by
    intro f
    have := labels_expand p TYPE NAME f
    unfold SwitchLambda.labels at this
    rw [this]
    exact ht
  rw [dispatch_of_eval p TYPE NAME body s s1 t h, dispatch_of_eval p TYPE NAME other s s1 t h,
    switch_miss t _ _ (hl body), switch_miss t _ _ (hl other),
    default_expand_body p TYPE NAME body other]

/-- C2, used: `AT_DISPATCH_ALL_TYPES` rejects `Half`; a body that would have changed the
state leaves no trace. -/
theorem C2_unbound_tag_fails_witness :
    ScalarType.Half ∉ Profile.ALL_TYPES.caseLabels
    ∧ dispatch Profile.ALL_TYPES (Comp.pure ScalarType.Half) (NameArg.token "mul")
        (fun _ => (fun n => (Except.ok (), n + 1) : Comp Nat Unit)) 0
      = (Except.error (UnsupportedType "mul" "Half"), 0) :=
  ⟨by decide,
    (C2_unbound_tag_fails Profile.ALL_TYPES ScalarType.Half (by decide) Nat Unit
      (NameArg.token "mul") (fun _ => (fun n => (Except.ok (), n + 1) : Comp Nat Unit)) 0).1⟩

/-- C3, refuted as stated: with the operation name `sum` passed the documented way, as the
string literal `"sum"`, `AT_DISPATCH_FLOATING_TYPES` on `Bool` does not raise the text
`sum not implemented for 'Bool'`: the text starts with the literal's double quotes. -/
theorem C3_counterexample :
    (NameArg.stringLiteral "sum").operationName = "sum"
    ∧ (AT_DISPATCH_FLOATING_TYPES (Comp.pure ScalarType.Bool : Comp Unit ScalarType)
          (NameArg.stringLiteral "sum") (fun _ => (Comp.pure () : Comp Unit Unit))).invoke ()
        = (Except.error { msg := "\"sum\" not implemented for 'Bool'" }, ())
    ∧ (AT_DISPATCH_FLOATING_TYPES (Comp.pure ScalarType.Bool : Comp Unit ScalarType)
          (NameArg.stringLiteral "sum") (fun _ => (Comp.pure () : Comp Unit Unit))).invoke ()
        ≠ (Except.error { msg := "sum not implemented for 'Bool'" }, ()) := by
  exact ⟨rfl, rfl, error_msg_ne _ _ () (by decide)⟩

/-- C3, amended: for every profile and every tag it rejects, the text of the failure is the
stringified `NAME` argument, then ` not implemented for '`, then the display name of the
tag, then `'`.  The stringified argument is the operation name itself when the name is a
bare token, and the operation name between double quotes when it is a string literal; so
`Bool` under `AT_DISPATCH_FLOATING_TYPES` gives `sum not implemented for 'Bool'` for the
token `sum` and `"sum" not implemented for 'Bool'` for the literal `"sum"`. -/
theorem C3_failure_text (p : Profile) (t : ScalarType) (ht : t ∉ p.caseLabels)
    (σ R : Type) (NAME : NameArg) (body : Body σ R) (s : σ) :
    dispatch p (Comp.pure t) NAME body s
        = (Except.error
            { msg := stringize NAME ++ " not implemented for '" ++ toString t ++ "'" }, s)
    ∧ (∀ op : String, stringize (NameArg.token op) = op)
    ∧ (∀ op : String, stringize (NameArg.stringLiteral op) = "\"" ++ op ++ "\"")
    ∧ (AT_DISPATCH_FLOATING_TYPES (Comp.pure ScalarType.Bool : Comp σ ScalarType)
          (NameArg.token "sum") body).invoke s
        = (Except.error { msg := "sum not implemented for 'Bool'" }, s)
    ∧ (AT_DISPATCH_FLOATING_TYPES (Comp.pure ScalarType.Bool : Comp σ ScalarType)
          (NameArg.stringLiteral "sum") body).invoke s
        = (Except.error { msg := "\"sum\" not implemented for 'Bool'" }, s) :=
  ⟨dispatch_unbound p t NAME body s ht, fun _ => rfl, fun _ => rfl, rfl, rfl⟩

/-- C3 amended, used: `AT_DISPATCH_INTEGRAL_TYPES_AND(Bool, ...)` rejects `Double`. -/
theorem C3_failure_text_witness :
    ScalarType.Double ∉ (Profile.INTEGRAL_TYPES_AND ScalarType.Bool).caseLabels
    ∧ dispatch (Profile.INTEGRAL_TYPES_AND ScalarType.Bool) (Comp.pure ScalarType.Double)
        (NameArg.stringLiteral "bitwise_not") (fun _ => (Comp.pure () : Comp Unit Unit)) ()
      = (Except.error
          { msg := stringize (NameArg.stringLiteral "bitwise_not") ++ " not implemented for '"
              ++ toString ScalarType.Double ++ "'" }, ()) :=
  ⟨by decide,
    (C3_failure_text (Profile.INTEGRAL_TYPES_AND ScalarType.Bool) ScalarType.Double
      (by decide) Unit Unit (NameArg.stringLiteral "bitwise_not")
      (fun _ => (Comp.pure () : Comp Unit Unit)) ()).1⟩

/-- C4, refuted as stated: with the operation name `add` passed the documented way, as the
string literal `"add"`, `AT_DISPATCH_ALL_TYPES` on `ComplexFloat` does not raise the text
`add not implemented for 'ComplexFloat'`: the text starts with the literal's double
quotes. -/
theorem C4_counterexample :
    (NameArg.stringLiteral "add").operationName = "add"
    ∧ (AT_DISPATCH_ALL_TYPES (Comp.pure ScalarType.ComplexFloat : Comp Unit ScalarType)
          (NameArg.stringLiteral "add") (fun _ => (Comp.pure () : Comp Unit Unit))).invoke ()
        = (Except.error { msg := "\"add\" not implemented for 'ComplexFloat'" }, ())
    ∧ (AT_DISPATCH_ALL_TYPES (Comp.pure ScalarType.ComplexFloat : Comp Unit ScalarType)
          (NameArg.stringLiteral "add") (fun _ => (Comp.pure () : Comp Unit Unit))).invoke ()
        ≠ (Except.error { msg := "add not implemented for 'ComplexFloat'" }, ()) :=
  ⟨rfl, rfl, error_msg_ne _ _ () (by decide)⟩

/-- C4, amended: the case labels of `AT_DISPATCH_ALL_TYPES` are exactly `Byte`, `Char`,
`Double`, `Float`, `Int`, `Long`, `Short`; dispatching any of them runs the body with
`scalar_t` bound to `uint8_t`, `int8_t`, `double`, `float` (4 bytes), `int32_t`, `int64_t`,
`int16_t`; every other tag, `Bool`, `Half`, `ComplexFloat` and `ComplexDouble` among them,
fails without running the body; for `ComplexFloat` the text is
`add not implemented for 'ComplexFloat'` when the name is the bare token `add` and
`"add" not implemented for 'ComplexFloat'` when it is the string literal `"add"`. -/
theorem C4_all_types_profile (σ R : Type) (NAME : NameArg) (body : Body σ R) (s : σ) :
    (AT_DISPATCH_ALL_TYPES (Comp.pure ScalarType.Byte : Comp σ ScalarType) NAME body).labels
        = [ScalarType.Byte, ScalarType.Char, ScalarType.Double, ScalarType.Float,
            ScalarType.Int, ScalarType.Long, ScalarType.Short]
    ∧ (AT_DISPATCH_ALL_TYPES (Comp.pure ScalarType.Byte : Comp σ ScalarType) NAME body).invoke s
        = body { scalar_t := CppType.uint8_t } s
    ∧ (AT_DISPATCH_ALL_TYPES (Comp.pure ScalarType.Char : Comp σ ScalarType) NAME body).invoke s
        = body { scalar_t := CppType.int8_t } s
    ∧ (AT_DISPATCH_ALL_TYPES (Comp.pure ScalarType.Double : Comp σ ScalarType) NAME
          body).invoke s = body { scalar_t := CppType.double } s
    ∧ (AT_DISPATCH_ALL_TYPES (Comp.pure ScalarType.Float : Comp σ ScalarType) NAME
          body).invoke s = body { scalar_t := CppType.float } s
    ∧ (AT_DISPATCH_ALL_TYPES (Comp.pure ScalarType.Int : Comp σ ScalarType) NAME body).invoke s
        = body { scalar_t := CppType.int32_t } s
    ∧ (AT_DISPATCH_ALL_TYPES (Comp.pure ScalarType.Long : Comp σ ScalarType) NAME body).invoke s
        = body { scalar_t := CppType.int64_t } s
    ∧ (AT_DISPATCH_ALL_TYPES (Comp.pure ScalarType.Short : Comp σ ScalarType) NAME
          body).invoke s = body { scalar_t := CppType.int16_t } s
    ∧ CppType.float.sizeof = 4 ∧ CppType.float.category = Category.floating
    ∧ (∀ t : ScalarType,
        t ∈ [ScalarType.Byte, ScalarType.Char, ScalarType.Double, ScalarType.Float,
              ScalarType.Int, ScalarType.Long, ScalarType.Short]
        ∨ (AT_DISPATCH_ALL_TYPES (Comp.pure t : Comp σ ScalarType) NAME body).invoke s
            = (Except.error (UnsupportedType (stringize NAME) (toString t)), s))
    ∧ (AT_DISPATCH_ALL_TYPES (Comp.pure ScalarType.Bool : Comp σ ScalarType) NAME body).invoke s
        = (Except.error (UnsupportedType (stringize NAME) "Bool"), s)
    ∧ (AT_DISPATCH_ALL_TYPES (Comp.pure ScalarType.Half : Comp σ ScalarType) NAME body).invoke s
        = (Except.error (UnsupportedType (stringize NAME) "Half"), s)
    ∧ (AT_DISPATCH_ALL_TYPES (Comp.pure ScalarType.ComplexFloat : Comp σ ScalarType) NAME
          body).invoke s = (Except.error (UnsupportedType (stringize NAME) "ComplexFloat"), s)
    ∧ (AT_DISPATCH_ALL_TYPES (Comp.pure ScalarType.ComplexDouble : Comp σ ScalarType) NAME
          body).invoke s = (Except.error (UnsupportedType (stringize NAME) "ComplexDouble"), s)
    ∧ (AT_DISPATCH_ALL_TYPES (Comp.pure ScalarType.ComplexFloat : Comp σ ScalarType)
          (NameArg.token "add") body).invoke s
        = (Except.error { msg := "add not implemented for 'ComplexFloat'" }, s)
    ∧ (AT_DISPATCH_ALL_TYPES (Comp.pure ScalarType.ComplexFloat : Comp σ ScalarType)
          (NameArg.stringLiteral "add") body).invoke s
        = (Except.error { msg := "\"add\" not implemented for 'ComplexFloat'" }, s) := by
  have key : ∀ t : ScalarType,
      t ∈ [ScalarType.Byte, ScalarType.Char, ScalarType.Double, ScalarType.Float,
            ScalarType.Int, ScalarType.Long, ScalarType.Short]
      ∨ (AT_DISPATCH_ALL_TYPES (Comp.pure t : Comp σ ScalarType) NAME body).invoke s
          = (Except.error (UnsupportedType (stringize NAME) (toString t)), s) := by
    intro t
    by_cases ht : t ∈ Profile.ALL_TYPES.caseLabels
    · exact Or.inl ht
    · exact Or.inr (dispatch_unbound Profile.ALL_TYPES t NAME body s ht)
  exact ⟨rfl, rfl, rfl, rfl, rfl, rfl, rfl, rfl, rfl, rfl, key,
    dispatch_unbound Profile.ALL_TYPES ScalarType.Bool NAME body s (by decide),
    dispatch_unbound Profile.ALL_TYPES ScalarType.Half NAME body s (by decide),
    dispatch_unbound Profile.ALL_TYPES ScalarType.ComplexFloat NAME body s (by decide),
    dispatch_unbound Profile.ALL_TYPES ScalarType.ComplexDouble NAME body s (by decide),
    rfl, rfl⟩

/-- C5, refuted as stated: with the operation name `exp` passed the documented way, as the
string literal `"exp"`, `AT_DISPATCH_FLOATING_TYPES` on `Half` does not fail with the
reporter's error for the operation name `exp` and `'Half'`: the name component of the error
is the name between double quotes. -/
theorem C5_counterexample :
    (NameArg.stringLiteral "exp").operationName = "exp"
    ∧ (AT_DISPATCH_FLOATING_TYPES (Comp.pure ScalarType.Half : Comp Unit ScalarType)
          (NameArg.stringLiteral "exp") (fun _ => (Comp.pure () : Comp Unit Unit))).invoke ()
        = (Except.error (UnsupportedType "\"exp\"" "Half"), ())
    ∧ (AT_DISPATCH_FLOATING_TYPES (Comp.pure ScalarType.Half : Comp Unit ScalarType)
          (NameArg.stringLiteral "exp") (fun _ => (Comp.pure () : Comp Unit Unit))).invoke ()
        ≠ (Except.error
            (UnsupportedType (NameArg.stringLiteral "exp").operationName "Half"), ()) :=
  ⟨rfl, rfl,
    error_msg_ne "\"exp\" not implemented for 'Half'" "exp not implemented for 'Half'" ()
      (by decide)⟩

/-- C5, amended: extending the floating profile with `Half` makes `Half` dispatchable, with
`scalar_t` bound to `at::Half`, while `AT_DISPATCH_FLOATING_TYPES` itself still rejects
`Half`, without running the body, with the reporter's error for the stringified `NAME`
argument and `'Half'`: the name component is the operation name itself when it is passed as
a bare token, and the operation name between double quotes when it is passed as a string
literal. -/
theorem C5_extend_floating_with_half (σ R : Type) (NAME : NameArg) (body : Body σ R) (s : σ) :
    (AT_DISPATCH_FLOATING_TYPES_AND ScalarType.Half (Comp.pure ScalarType.Half) NAME
        body).invoke s = body { scalar_t := CppType.Half } s
    ∧ ScalarTypeToCPPType ScalarType.Half = CppType.Half
    ∧ (AT_DISPATCH_FLOATING_TYPES (Comp.pure ScalarType.Half : Comp σ ScalarType) NAME
        body).invoke s = (Except.error (UnsupportedType (stringize NAME) "Half"), s)
    ∧ (∀ op : String,
        (AT_DISPATCH_FLOATING_TYPES (Comp.pure ScalarType.Half : Comp σ ScalarType)
            (NameArg.token op) body).invoke s
          = (Except.error (UnsupportedType op "Half"), s))
    ∧ (∀ op : String,
        (AT_DISPATCH_FLOATING_TYPES (Comp.pure ScalarType.Half : Comp σ ScalarType)
            (NameArg.stringLiteral op) body).invoke s
          = (Except.error (UnsupportedType ("\"" ++ op ++ "\"") "Half"), s)) :=
  ⟨rfl, rfl, dispatch_unbound Profile.FLOATING_TYPES ScalarType.Half NAME body s (by decide),
    fun op => dispatch_unbound Profile.FLOATING_TYPES ScalarType.Half (NameArg.token op) body
      s (by decide),
    fun op => dispatch_unbound Profile.FLOATING_TYPES ScalarType.Half
      (NameArg.stringLiteral op) body s (by decide)⟩

/-- C6: for each of the five base profiles with a one-tag extension (floating,
floating+complex, integral, all, all+complex), every extra tag `X` and every runtime tag
`t` other than `X`, dispatching `t` under the extended profile has the same outcome as
under the base profile: the same body run, or the same error.  No assumption on `X` is
needed. -/
theorem C6_extension_frame (X t : ScalarType) (h : t ≠ X) (σ R : Type) (NAME : NameArg)
    (body : Body σ R) (s : σ) :
    (AT_DISPATCH_FLOATING_TYPES_AND X (Comp.pure t) NAME body).invoke s
        = (AT_DISPATCH_FLOATING_TYPES (Comp.pure t : Comp σ ScalarType) NAME body).invoke s
    ∧ (AT_DISPATCH_FLOATING_AND_COMPLEX_TYPES_AND1 X (Comp.pure t : Comp σ ScalarType) NAME
          body).invoke s
        = (AT_DISPATCH_FLOATING_AND_COMPLEX_TYPES (Comp.pure t : Comp σ ScalarType) NAME
            body).invoke s
    ∧ (AT_DISPATCH_INTEGRAL_TYPES_AND X (Comp.pure t) NAME body).invoke s
        = (AT_DISPATCH_INTEGRAL_TYPES (Comp.pure t : Comp σ ScalarType) NAME body).invoke s
    ∧ (AT_DISPATCH_ALL_TYPES_AND X (Comp.pure t) NAME body).invoke s
        = (AT_DISPATCH_ALL_TYPES (Comp.pure t : Comp σ ScalarType) NAME body).invoke s
    ∧ (AT_DISPATCH_ALL_TYPES_AND_COMPLEX_AND X (Comp.pure t) NAME body).invoke s
        = (AT_DISPATCH_ALL_TYPES_AND_COMPLEX (Comp.pure t : Comp σ ScalarType) NAME
            body).invoke s := by
  refine ⟨?_, ?_, ?_, ?_, ?_⟩
  · refine dispatch_congr_labels (Profile.FLOATING_TYPES_AND X) Profile.FLOATING_TYPES t
      ?_ rfl NAME body s
    show t ∈ [ScalarType.Double, ScalarType.Float, X]
      ↔ t ∈ [ScalarType.Double, ScalarType.Float]
    simp [h]
  · refine dispatch_congr_labels (Profile.FLOATING_AND_COMPLEX_TYPES_AND1 X)
      Profile.FLOATING_AND_COMPLEX_TYPES t ?_ rfl NAME body s
    show t ∈ [ScalarType.Double, ScalarType.Float, ScalarType.ComplexDouble,
        ScalarType.ComplexFloat, X]
      ↔ t ∈ [ScalarType.Double, ScalarType.Float, ScalarType.ComplexDouble,
        ScalarType.ComplexFloat]
    simp [h]
  · refine dispatch_congr_labels (Profile.INTEGRAL_TYPES_AND X) Profile.INTEGRAL_TYPES t
      ?_ rfl NAME body s
    show t ∈ [ScalarType.Byte, ScalarType.Char, ScalarType.Int, ScalarType.Long,
        ScalarType.Short, X]
      ↔ t ∈ [ScalarType.Byte, ScalarType.Char, ScalarType.Int, ScalarType.Long,
        ScalarType.Short]
    simp [h]
  · refine dispatch_congr_labels (Profile.ALL_TYPES_AND X) Profile.ALL_TYPES t
      ?_ rfl NAME body s
    show t ∈ [ScalarType.Byte, ScalarType.Char, ScalarType.Double, ScalarType.Float,
        ScalarType.Int, ScalarType.Long, ScalarType.Short, X]
      ↔ t ∈ [ScalarType.Byte, ScalarType.Char, ScalarType.Double, ScalarType.Float,
        ScalarType.Int, ScalarType.Long, ScalarType.Short]
    simp [h]
  · refine dispatch_congr_labels (Profile.ALL_TYPES_AND_COMPLEX_AND X)
      Profile.ALL_TYPES_AND_COMPLEX t ?_ rfl NAME body s
    show t ∈ [ScalarType.Byte, ScalarType.Char, ScalarType.Double, ScalarType.Float,
        ScalarType.Int, ScalarType.Long, ScalarType.Short, ScalarType.ComplexFloat,
        ScalarType.ComplexDouble, X]
      ↔ t ∈ [ScalarType.Byte, ScalarType.Char, ScalarType.Double, ScalarType.Float,
        ScalarType.Int, ScalarType.Long, ScalarType.Short, ScalarType.ComplexFloat,
        ScalarType.ComplexDouble]
    simp [h]

/-- C6, used: with extra tag `Bool`, the runtime tag `Half` is still rejected by the
extended all-types profile exactly as by `AT_DISPATCH_ALL_TYPES`, and `Float` still runs the
body. -/
theorem C6_extension_frame_witness :
    ScalarType.Half ≠ ScalarType.Bool
    ∧ (AT_DISPATCH_ALL_TYPES_AND ScalarType.Bool (Comp.pure ScalarType.Half)
          (NameArg.stringLiteral "op") (fun b => (Comp.pure b.scalar_t : Comp Unit CppType))).invoke ()
        = (AT_DISPATCH_ALL_TYPES (Comp.pure ScalarType.Half : Comp Unit ScalarType)
          (NameArg.stringLiteral "op") (fun b => (Comp.pure b.scalar_t : Comp Unit CppType))).invoke () :=
  ⟨by decide,
    (C6_extension_frame ScalarType.Bool ScalarType.Half (by decide) Unit CppType
      (NameArg.stringLiteral "op") (fun b => (Comp.pure b.scalar_t : Comp Unit CppType)) ()).2.2.2.1⟩

/-- C7, the code at failing inputs: a tag expression that counts its evaluations and yields
a tag the profile rejects is evaluated twice by `AT_DISPATCH_QINT_TYPES`,
`AT_DISPATCH_FLOATING_TYPES_AND` and `AT_DISPATCH_ALL_TYPES_AND` (once for the switch, once
more for the message), and once by `AT_DISPATCH_FLOATING_TYPES`.  With an expression that
yields `Bool` first and `Float` afterwards, `AT_DISPATCH_FLOATING_TYPES_AND` switches on
`Bool`, fails, and reports `Float`, a tag the profile binds.  The remaining equations give
the count for every other definition of the family: two for the ones whose default branch
names `TYPE`, one for the ones whose default branch names `_st`. -/
theorem C7_tag_read_again_on_failure :
    (AT_DISPATCH_QINT_TYPES (countingTag ScalarType.Float) (NameArg.token "op")
        (fun _ => (Comp.pure () : Comp Nat Unit))).invoke 0
      = (Except.error (UnsupportedType "op" "Float"), 2)
    ∧ (AT_DISPATCH_FLOATING_TYPES_AND ScalarType.Half (countingTag ScalarType.Bool)
        (NameArg.token "op") (fun _ => (Comp.pure () : Comp Nat Unit))).invoke 0
      = (Except.error (UnsupportedType "op" "Bool"), 2)
    ∧ (AT_DISPATCH_ALL_TYPES_AND ScalarType.Half (countingTag ScalarType.Bool)
        (NameArg.token "op") (fun _ => (Comp.pure () : Comp Nat Unit))).invoke 0
      = (Except.error (UnsupportedType "op" "Bool"), 2)
    ∧ (AT_DISPATCH_FLOATING_TYPES (countingTag ScalarType.Bool)
        (NameArg.token "op") (fun _ => (Comp.pure () : Comp Nat Unit))).invoke 0
      = (Except.error (UnsupportedType "op" "Bool"), 1)
    ∧ (AT_DISPATCH_FLOATING_TYPES_AND ScalarType.Half changingTag
        (NameArg.token "op") (fun _ => (Comp.pure () : Comp Nat Unit))).invoke 0
      = (Except.error (UnsupportedType "op" "Float"), 2)
    ∧ ScalarType.Float
        ∈ (AT_DISPATCH_FLOATING_TYPES_AND ScalarType.Half changingTag
            (NameArg.token "op") (fun _ => (Comp.pure () : Comp Nat Unit))).labels
    ∧ ((AT_DISPATCH_FLOATING_TYPES_AND2 ScalarType.Half ScalarType.Bool (countingTag ScalarType.QInt8)
        (NameArg.token "op") (fun _ => (Comp.pure () : Comp Nat Unit))).invoke 0).2 = 2
    ∧ ((AT_DISPATCH_INTEGRAL_TYPES_AND ScalarType.Half (countingTag ScalarType.QInt8)
        (NameArg.token "op") (fun _ => (Comp.pure () : Comp Nat Unit))).invoke 0).2 = 2
    ∧ ((AT_DISPATCH_ALL_TYPES_AND_COMPLEX_AND ScalarType.Half (countingTag ScalarType.QInt8)
        (NameArg.token "op") (fun _ => (Comp.pure () : Comp Nat Unit))).invoke 0).2 = 2
    ∧ ((AT_DISPATCH_ALL_TYPES_AND2 ScalarType.Half ScalarType.Bool (countingTag ScalarType.QInt8)
        (NameArg.token "op") (fun _ => (Comp.pure () : Comp Nat Unit))).invoke 0).2 = 2
    ∧ ((AT_DISPATCH_ALL_TYPES_AND_COMPLEX_AND2 ScalarType.Half ScalarType.Bool (countingTag ScalarType.QInt8)
        (NameArg.token "op") (fun _ => (Comp.pure () : Comp Nat Unit))).invoke 0).2 = 2
    ∧ ((AT_DISPATCH_ALL_TYPES_AND3 ScalarType.Half ScalarType.Bool ScalarType.BFloat16 (countingTag ScalarType.QInt8)
        (NameArg.token "op") (fun _ => (Comp.pure () : Comp Nat Unit))).invoke 0).2 = 2
    ∧ ((AT_DISPATCH_ALL_TYPES_AND_COMPLEX_AND3 ScalarType.Half ScalarType.Bool ScalarType.BFloat16 (countingTag ScalarType.QInt8)
        (NameArg.token "op") (fun _ => (Comp.pure () : Comp Nat Unit))).invoke 0).2 = 2
    ∧ ((AT_DISPATCH_FLOATING_TYPES_AND_HALF (countingTag ScalarType.QInt8)
        (NameArg.token "op") (fun _ => (Comp.pure () : Comp Nat Unit))).invoke 0).2 = 1
    ∧ ((AT_DISPATCH_FLOATING_AND_COMPLEX_TYPES (countingTag ScalarType.QInt8)
        (NameArg.token "op") (fun _ => (Comp.pure () : Comp Nat Unit))).invoke 0).2 = 1
    ∧ ((AT_DISPATCH_FLOATING_AND_COMPLEX_TYPES_AND1 ScalarType.Half (countingTag ScalarType.QInt8)
        (NameArg.token "op") (fun _ => (Comp.pure () : Comp Nat Unit))).invoke 0).2 = 1
    ∧ ((AT_DISPATCH_FLOATING_AND_COMPLEX_TYPES_AND2 ScalarType.Half ScalarType.Bool (countingTag ScalarType.QInt8)
        (NameArg.token "op") (fun _ => (Comp.pure () : Comp Nat Unit))).invoke 0).2 = 1
    ∧ ((AT_DISPATCH_INTEGRAL_TYPES (countingTag ScalarType.QInt8)
        (NameArg.token "op") (fun _ => (Comp.pure () : Comp Nat Unit))).invoke 0).2 = 1
    ∧ ((AT_DISPATCH_ALL_TYPES (countingTag ScalarType.QInt8)
        (NameArg.token "op") (fun _ => (Comp.pure () : Comp Nat Unit))).invoke 0).2 = 1
    ∧ ((AT_DISPATCH_COMPLEX_TYPES (countingTag ScalarType.QInt8)
        (NameArg.token "op") (fun _ => (Comp.pure () : Comp Nat Unit))).invoke 0).2 = 1
    ∧ ((AT_DISPATCH_ALL_TYPES_AND_COMPLEX (countingTag ScalarType.QInt8)
        (NameArg.token "op") (fun _ => (Comp.pure () : Comp Nat Unit))).invoke 0).2 = 1
    ∧ ((AT_DISPATCH_ALL_TYPES_AND_HALF (countingTag ScalarType.QInt8)
        (NameArg.token "op") (fun _ => (Comp.pure () : Comp Nat Unit))).invoke 0).2 = 1 :=
  ⟨rfl, rfl, rfl, rfl, rfl, by decide, rfl, rfl, rfl, rfl, rfl, rfl, rfl, rfl, rfl, rfl, rfl, rfl, rfl, rfl, rfl, rfl⟩

/-- C8: under `AT_DISPATCH_QINT_TYPES` the body of each quantized tag sees the quantized
type and tag together with the underlying type and tag of its storage: `QInt8` gives
`qint8`, `int8_t` (1 byte, signed), `Char`; `QUInt8` gives `quint8`, `uint8_t` (1 byte,
unsigned), `Byte`; `QInt32` gives `qint32`, `int` (4 bytes, signed), `Int`.  What the case
block computes (`scalar_t::underlying`, `toUnderlying(enum_type)`) is the pair written as
`underlying_enum`, `underlying_type` in that case of the profile. -/
theorem C8_qint_bindings (σ R : Type) (NAME : NameArg) (body : Body σ R) (s : σ) :
    (AT_DISPATCH_QINT_TYPES (Comp.pure ScalarType.QInt8) NAME body).invoke s
        = body { scalar_t := CppType.qint8, underlying_t := some CppType.int8_t,
                 SCALAR_TYPE := some ScalarType.QInt8,
                 UNDERLYING_TYPE := some ScalarType.Char } s
    ∧ (AT_DISPATCH_QINT_TYPES (Comp.pure ScalarType.QUInt8) NAME body).invoke s
        = body { scalar_t := CppType.quint8, underlying_t := some CppType.uint8_t,
                 SCALAR_TYPE := some ScalarType.QUInt8,
                 UNDERLYING_TYPE := some ScalarType.Byte } s
    ∧ (AT_DISPATCH_QINT_TYPES (Comp.pure ScalarType.QInt32) NAME body).invoke s
        = body { scalar_t := CppType.qint32, underlying_t := some CppType.int,
                 SCALAR_TYPE := some ScalarType.QInt32,
                 UNDERLYING_TYPE := some ScalarType.Int } s
    ∧ (AT_QINT_PRIVATE_CASE_TYPE kQInt8 CppType.qint8 kChar CppType.int8_t body).decls
        = { scalar_t := CppType.qint8, underlying_t := some CppType.int8_t,
            SCALAR_TYPE := some kQInt8, UNDERLYING_TYPE := some kChar }
    ∧ (AT_QINT_PRIVATE_CASE_TYPE kQUInt8 CppType.quint8 kByte CppType.uint8_t body).decls
        = { scalar_t := CppType.quint8, underlying_t := some CppType.uint8_t,
            SCALAR_TYPE := some kQUInt8, UNDERLYING_TYPE := some kByte }
    ∧ (AT_QINT_PRIVATE_CASE_TYPE kQInt32 CppType.qint32 kInt CppType.int body).decls
        = { scalar_t := CppType.qint32, underlying_t := some CppType.int,
            SCALAR_TYPE := some kQInt32, UNDERLYING_TYPE := some kInt }
    ∧ (AT_DISPATCH_QINT_TYPES (Comp.pure ScalarType.QInt8) NAME body).cases
        = [ AT_QINT_PRIVATE_CASE_TYPE kQInt8 CppType.qint8 kChar CppType.int8_t body,
            AT_QINT_PRIVATE_CASE_TYPE kQUInt8 CppType.quint8 kByte CppType.uint8_t body,
            AT_QINT_PRIVATE_CASE_TYPE kQInt32 CppType.qint32 kInt CppType.int body ]
    ∧ CppType.int8_t.sizeof = 1 ∧ CppType.int8_t.category = Category.signedInt
    ∧ CppType.uint8_t.sizeof = 1 ∧ CppType.uint8_t.category = Category.unsignedInt
    ∧ CppType.int.sizeof = 4 ∧ CppType.int.category = Category.signedInt
    ∧ ScalarTypeToCPPType ScalarType.Char = CppType.int8_t
    ∧ ScalarTypeToCPPType ScalarType.Byte = CppType.uint8_t
    ∧ ScalarTypeToCPPType ScalarType.Int = CppType.int :=
  ⟨rfl, rfl, rfl, rfl, rfl, rfl, rfl, rfl, rfl, rfl, rfl, rfl, rfl, rfl, rfl, rfl⟩

/-- C9: the case labels of `AT_DISPATCH_QINT_TYPES` are exactly `QInt8`, `QUInt8`, `QInt32`;
any other tag, the storage tags `Char`, `Byte` and `Int` included, is rejected with the
reporter's error for that tag, the state is untouched and the body is not run. -/
theorem C9_qint_binds_three_only (t : ScalarType) (h8 : t ≠ ScalarType.QInt8)
    (hu8 : t ≠ ScalarType.QUInt8) (h32 : t ≠ ScalarType.QInt32)
    (σ R : Type) (NAME : NameArg) (body : Body σ R) (s : σ) :
    (AT_DISPATCH_QINT_TYPES (Comp.pure t) NAME body).labels
        = [ScalarType.QInt8, ScalarType.QUInt8, ScalarType.QInt32]
    ∧ (AT_DISPATCH_QINT_TYPES (Comp.pure t) NAME body).invoke s
        = (Except.error (UnsupportedType (stringize NAME) (toString t)), s)
    ∧ (AT_DISPATCH_QINT_TYPES (Comp.pure ScalarType.Char) NAME body).invoke s
        = (Except.error (UnsupportedType (stringize NAME) "Char"), s)
    ∧ (AT_DISPATCH_QINT_TYPES (Comp.pure ScalarType.Byte) NAME body).invoke s
        = (Except.error (UnsupportedType (stringize NAME) "Byte"), s)
    ∧ (AT_DISPATCH_QINT_TYPES (Comp.pure ScalarType.Int) NAME body).invoke s
        = (Except.error (UnsupportedType (stringize NAME) "Int"), s) := by
  refine ⟨rfl, dispatch_unbound Profile.QINT_TYPES t NAME body s ?_,
    dispatch_unbound Profile.QINT_TYPES ScalarType.Char NAME body s (by decide),
    dispatch_unbound Profile.QINT_TYPES ScalarType.Byte NAME body s (by decide),
    dispatch_unbound Profile.QINT_TYPES ScalarType.Int NAME body s (by decide)⟩
  show t ∉ [ScalarType.QInt8, ScalarType.QUInt8, ScalarType.QInt32]
  simp [h8, hu8, h32]

/-- C9, used: `BFloat16` under the quantized profile; a body that would have changed the
state leaves no trace. -/
theorem C9_qint_binds_three_only_witness :
    ScalarType.BFloat16 ≠ ScalarType.QInt8 ∧ ScalarType.BFloat16 ≠ ScalarType.QUInt8
    ∧ ScalarType.BFloat16 ≠ ScalarType.QInt32
    ∧ (AT_DISPATCH_QINT_TYPES (Comp.pure ScalarType.BFloat16) (NameArg.token "quantize")
          (fun _ => (fun n => (Except.ok (), n + 1) : Comp Nat Unit))).invoke 0
        = (Except.error (UnsupportedType "quantize" "BFloat16"), 0) :=
  ⟨by decide, by decide, by decide,
    (C9_qint_binds_three_only ScalarType.BFloat16 (by decide) (by decide) (by decide) Nat Unit
      (NameArg.token "quantize") (fun _ => (fun n => (Except.ok (), n + 1) : Comp Nat Unit))
      0).2.1⟩

/-- C10, refuted as stated: with the operation name `abs` passed the documented way, as the
string literal `"abs"`, the guard on a build without `__HIP_PLATFORM_HCC__` applied to
`at::BFloat16` does not fail with the reporter's error for the operation name `abs` and
`'BFloat16'`: the name component of the error is the name between double quotes. -/
theorem C10_counterexample :
    (NameArg.stringLiteral "abs").operationName = "abs"
    ∧ AT_SKIP_BFLOAT16_IF_NOT_ROCM false CppType.BFloat16 (NameArg.stringLiteral "abs")
          (Comp.pure () : Comp Unit Unit) ()
        = (Except.error (UnsupportedType "\"abs\"" "BFloat16"), ())
    ∧ AT_SKIP_BFLOAT16_IF_NOT_ROCM false CppType.BFloat16 (NameArg.stringLiteral "abs")
          (Comp.pure () : Comp Unit Unit) ()
        ≠ (Except.error
            (UnsupportedType (NameArg.stringLiteral "abs").operationName "BFloat16"), ()) :=
  ⟨rfl, rfl,
    error_msg_ne "\"abs\" not implemented for 'BFloat16'"
      "abs not implemented for 'BFloat16'" () (by decide)⟩

/-- C10, amended: on a build without `__HIP_PLATFORM_HCC__`, the guard applied to
`at::BFloat16` throws the reporter's error for the stringified `NAME` argument and
`'BFloat16'` without running the wrapped lambda; this is the very outcome of any profile
that does not bind `BFloat16` when it is dispatched on `BFloat16` with the same `NAME`.
Used as documented, inside the body of a profile that does bind `BFloat16`, the failure
comes after the case is selected and before the wrapped lambda runs.  The name component of
the error is the operation name itself when it is passed as a bare token, and the operation
name between double quotes when it is passed as a string literal. -/
theorem C10_bfloat16_guard (σ R : Type) (NAME : NameArg) (va_args : Comp σ R)
    (body : Body σ R) (inner : Body σ R) (s : σ) :
    AT_SKIP_BFLOAT16_IF_NOT_ROCM false CppType.BFloat16 NAME va_args s
        = (Except.error (UnsupportedType (stringize NAME) "BFloat16"), s)
    ∧ (∀ p : Profile, ScalarType.BFloat16 ∈ p.caseLabels
        ∨ dispatch p (Comp.pure ScalarType.BFloat16) NAME body s
            = AT_SKIP_BFLOAT16_IF_NOT_ROCM false CppType.BFloat16 NAME va_args s)
    ∧ (AT_DISPATCH_FLOATING_TYPES (Comp.pure ScalarType.BFloat16 : Comp σ ScalarType) NAME
          body).invoke s
        = AT_SKIP_BFLOAT16_IF_NOT_ROCM false CppType.BFloat16 NAME va_args s
    ∧ (AT_DISPATCH_ALL_TYPES_AND ScalarType.BFloat16 (Comp.pure ScalarType.BFloat16) NAME
          (fun b => AT_SKIP_BFLOAT16_IF_NOT_ROCM false b.scalar_t NAME (inner b))).invoke s
        = (Except.error (UnsupportedType (stringize NAME) "BFloat16"), s)
    ∧ (∀ op : String,
        AT_SKIP_BFLOAT16_IF_NOT_ROCM false CppType.BFloat16 (NameArg.token op) va_args s
          = (Except.error (UnsupportedType op "BFloat16"), s))
    ∧ (∀ op : String,
        AT_SKIP_BFLOAT16_IF_NOT_ROCM false CppType.BFloat16 (NameArg.stringLiteral op)
            va_args s
          = (Except.error (UnsupportedType ("\"" ++ op ++ "\"") "BFloat16"), s)) := by
  have guardAt : ∀ (N : NameArg) (f : Comp σ R),
      AT_SKIP_BFLOAT16_IF_NOT_ROCM false CppType.BFloat16 N f s
        = (Except.error (UnsupportedType (stringize N) "BFloat16"), s) := by
    intro N f
    simp [AT_SKIP_BFLOAT16_IF_NOT_ROCM, AT_ERROR, c10_str_report, toString]
  have guard := guardAt NAME va_args
  have guard2 := guardAt NAME (inner { scalar_t := CppType.BFloat16 })
  refine ⟨guard, ?_, ?_, ?_, fun op => guardAt (NameArg.token op) va_args,
    fun op => guardAt (NameArg.stringLiteral op) va_args⟩
  · intro p
    by_cases hp : ScalarType.BFloat16 ∈ p.caseLabels
    · exact Or.inl hp
    · exact Or.inr ((dispatch_unbound p ScalarType.BFloat16 NAME body s hp).trans guard.symm)
  · exact (dispatch_unbound Profile.FLOATING_TYPES ScalarType.BFloat16 NAME body s
      (by decide)).trans guard.symm
  · exact guard2

/-! ## Further general facts -/

theorem compile_eq_none_iff {σ R : Type} (l : SwitchLambda σ R) :
    l.compile = none ↔ ¬ l.labels.Nodup := by
  unfold SwitchLambda.compile SwitchLambda.wellFormed
  by_cases h : l.labels.Nodup
  · simp [h]
  · simp [h]

theorem compile_eq_some_iff {σ R : Type} (l : SwitchLambda σ R) :
    l.compile = some l.invoke ↔ l.labels.Nodup := by
  unfold SwitchLambda.compile SwitchLambda.wellFormed
  by_cases h : l.labels.Nodup
  · simp [h]
  · simp [h]

theorem nodup_append_one (l : List ScalarType) (hl : l.Nodup) (x : ScalarType) :
    (l ++ [x]).Nodup ↔ x ∉ l := by
  simp [List.nodup_append, hl]

theorem nodup_append_two (l : List ScalarType) (hl : l.Nodup) (x y : ScalarType) :
    (l ++ [x, y]).Nodup ↔ x ∉ l ∧ y ∉ l ∧ x ≠ y := by
  simp [List.nodup_append, hl]
  tauto

theorem nodup_append_three (l : List ScalarType) (hl : l.Nodup) (x y z : ScalarType) :
    (l ++ [x, y, z]).Nodup ↔ x ∉ l ∧ y ∉ l ∧ z ∉ l ∧ x ≠ y ∧ x ≠ z ∧ y ≠ z := by
  simp [List.nodup_append, hl]
  tauto

theorem nodup_labels_expand {σ R : Type} (p : Profile) (h : p.caseLabels.Nodup)
    (TYPE : Comp σ ScalarType) (NAME : NameArg) (f : Body σ R) :
    (p.expand TYPE NAME f).labels.Nodup := by
  rw [labels_expand]
  exact h

theorem count_le_one_of_nodup (l : List ScalarType) (h : l.Nodup) (t : ScalarType) :
    l.count t ≤ 1 :=
  List.nodup_iff_count_le_one.1 h t

/-! ## The claims, continued -/

/-- C11: the deprecated `AT_DISPATCH_ALL_TYPES_AND_HALF` has, for every tag, name and body,
the same outcome as `AT_DISPATCH_ALL_TYPES_AND(at::ScalarType::Half, ...)`: the two switches
have the same case blocks, and the deprecation marker called first returns at once without
touching the state, so that the switch is entered with exactly what the tag expression
yields. -/
theorem C11_deprecated_all_types_and_half (t : ScalarType) (σ R : Type)
    (TYPE : Comp σ ScalarType) (NAME : NameArg) (body : Body σ R) (s : σ) :
    (AT_DISPATCH_ALL_TYPES_AND_HALF (Comp.pure t : Comp σ ScalarType) NAME body).invoke s
        = (AT_DISPATCH_ALL_TYPES_AND ScalarType.Half (Comp.pure t) NAME body).invoke s
    ∧ (AT_DISPATCH_ALL_TYPES_AND_HALF TYPE NAME body).cases
        = (AT_DISPATCH_ALL_TYPES_AND ScalarType.Half TYPE NAME body).cases
    ∧ (detail.deprecated_AT_DISPATCH_ALL_TYPES_AND_HALF : Comp σ Unit) s = (Except.ok (), s)
    ∧ (AT_DISPATCH_ALL_TYPES_AND_HALF TYPE NAME body).scrutinee s = TYPE s
    ∧ (AT_DISPATCH_ALL_TYPES_AND_HALF TYPE NAME body).compile
        = some (AT_DISPATCH_ALL_TYPES_AND_HALF TYPE NAME body).invoke :=
  ⟨dispatch_congr_labels Profile.ALL_TYPES_AND_HALF (Profile.ALL_TYPES_AND ScalarType.Half) t
      Iff.rfl rfl NAME body s,
    rfl, rfl, scrutinee_expand Profile.ALL_TYPES_AND_HALF TYPE NAME body s,
    (compile_eq_some_iff _).2
      (nodup_labels_expand Profile.ALL_TYPES_AND_HALF (by decide) TYPE NAME body)⟩

/-- C13: every base profile (floating, floating+half, floating+complex, integral, all,
complex, all+complex, quantized, and the deprecated all+half) is duplicate-free: the case
labels of its switch are pairwise distinct, so that a tag labels at most one case block and
is bound to at most one representation. -/
theorem C13_base_profiles_duplicate_free (σ R : Type) (TYPE : Comp σ ScalarType)
    (NAME : NameArg) (body : Body σ R) :
    ((AT_DISPATCH_FLOATING_TYPES TYPE NAME body).labels.Nodup
      ∧ ∀ t : ScalarType, (AT_DISPATCH_FLOATING_TYPES TYPE NAME body).labels.count t ≤ 1)
    ∧ ((AT_DISPATCH_FLOATING_TYPES_AND_HALF TYPE NAME body).labels.Nodup
      ∧ ∀ t : ScalarType, (AT_DISPATCH_FLOATING_TYPES_AND_HALF TYPE NAME body).labels.count t ≤ 1)
    ∧ ((AT_DISPATCH_FLOATING_AND_COMPLEX_TYPES TYPE NAME body).labels.Nodup
      ∧ ∀ t : ScalarType, (AT_DISPATCH_FLOATING_AND_COMPLEX_TYPES TYPE NAME body).labels.count t ≤ 1)
    ∧ ((AT_DISPATCH_INTEGRAL_TYPES TYPE NAME body).labels.Nodup
      ∧ ∀ t : ScalarType, (AT_DISPATCH_INTEGRAL_TYPES TYPE NAME body).labels.count t ≤ 1)
    ∧ ((AT_DISPATCH_ALL_TYPES TYPE NAME body).labels.Nodup
      ∧ ∀ t : ScalarType, (AT_DISPATCH_ALL_TYPES TYPE NAME body).labels.count t ≤ 1)
    ∧ ((AT_DISPATCH_COMPLEX_TYPES TYPE NAME body).labels.Nodup
      ∧ ∀ t : ScalarType, (AT_DISPATCH_COMPLEX_TYPES TYPE NAME body).labels.count t ≤ 1)
    ∧ ((AT_DISPATCH_ALL_TYPES_AND_COMPLEX TYPE NAME body).labels.Nodup
      ∧ ∀ t : ScalarType, (AT_DISPATCH_ALL_TYPES_AND_COMPLEX TYPE NAME body).labels.count t ≤ 1)
    ∧ ((AT_DISPATCH_QINT_TYPES TYPE NAME body).labels.Nodup
      ∧ ∀ t : ScalarType, (AT_DISPATCH_QINT_TYPES TYPE NAME body).labels.count t ≤ 1)
    ∧ ((AT_DISPATCH_ALL_TYPES_AND_HALF TYPE NAME body).labels.Nodup
      ∧ ∀ t : ScalarType, (AT_DISPATCH_ALL_TYPES_AND_HALF TYPE NAME body).labels.count t ≤ 1) := by
  have both : ∀ p : Profile, p.caseLabels.Nodup →
      (p.expand TYPE NAME body).labels.Nodup
        ∧ ∀ t : ScalarType, (p.expand TYPE NAME body).labels.count t ≤ 1 := by
    intro p hp
    have h := nodup_labels_expand p hp TYPE NAME body
    exact ⟨h, count_le_one_of_nodup _ h⟩
  exact
    ⟨both Profile.FLOATING_TYPES (by decide),
     both Profile.FLOATING_TYPES_AND_HALF (by decide),
     both Profile.FLOATING_AND_COMPLEX_TYPES (by decide),
     both Profile.INTEGRAL_TYPES (by decide),
     both Profile.ALL_TYPES (by decide),
     both Profile.COMPLEX_TYPES (by decide),
     both Profile.ALL_TYPES_AND_COMPLEX (by decide),
     both Profile.QINT_TYPES (by decide),
     both Profile.ALL_TYPES_AND_HALF (by decide)⟩

/-- C14: in each of the three case blocks of the quantized profile the quantized type is as
wide as its underlying type: `qint8` and `int8_t` 1 byte, `quint8` and `uint8_t` 1 byte,
`qint32` and `int` 4 bytes. -/
theorem C14_qint_storage_width (σ R : Type) (TYPE : Comp σ ScalarType) (NAME : NameArg)
    (body : Body σ R) :
    (AT_DISPATCH_QINT_TYPES TYPE NAME body).cases.map
        (fun c => (c.enum_type, c.decls.scalar_t.sizeof,
          c.decls.underlying_t.map CppType.sizeof))
      = [ (ScalarType.QInt8, 1, some 1), (ScalarType.QUInt8, 1, some 1),
          (ScalarType.QInt32, 4, some 4) ]
    ∧ CppType.qint8.sizeof = CppType.int8_t.sizeof
    ∧ CppType.quint8.sizeof = CppType.uint8_t.sizeof
    ∧ CppType.qint32.sizeof = CppType.int.sizeof
    ∧ CppType.qint8.underlying = some CppType.int8_t
    ∧ CppType.quint8.underlying = some CppType.uint8_t
    ∧ CppType.qint32.underlying = some CppType.int :=
  ⟨rfl, rfl, rfl, rfl, rfl, rfl, rfl⟩

/-- C19: when the build defines `__HIP_PLATFORM_HCC__`, or the type handed to the guard is
not `at::BFloat16`, `AT_SKIP_BFLOAT16_IF_NOT_ROCM` is the wrapped lambda itself: it runs
once, and its result and effects are handed back unchanged. -/
theorem C19_guard_transparent (HIP_PLATFORM_HCC : Bool) (SCALARTYPE : CppType)
    (h : HIP_PLATFORM_HCC = true ∨ SCALARTYPE ≠ CppType.BFloat16)
    (σ R : Type) (NAME : NameArg) (va_args : Comp σ R) :
    AT_SKIP_BFLOAT16_IF_NOT_ROCM HIP_PLATFORM_HCC SCALARTYPE NAME va_args = va_args := by
  unfold AT_SKIP_BFLOAT16_IF_NOT_ROCM
  rcases h with h | h
  · simp [h]
  · simp [h]

/-- C19, used: on a ROCm build the guard lets `at::BFloat16` through, and on any build it
lets `float` through; the wrapped lambda, which counts its runs, has run once. -/
theorem C19_guard_transparent_witness :
    ((true = true ∨ CppType.BFloat16 ≠ CppType.BFloat16)
      ∧ AT_SKIP_BFLOAT16_IF_NOT_ROCM true CppType.BFloat16 (NameArg.stringLiteral "op")
          (fun n => (Except.ok CppType.BFloat16, n + 1) : Comp Nat CppType) 0
        = (Except.ok CppType.BFloat16, 1))
    ∧ ((false = true ∨ CppType.float ≠ CppType.BFloat16)
      ∧ AT_SKIP_BFLOAT16_IF_NOT_ROCM false CppType.float (NameArg.stringLiteral "op")
          (fun n => (Except.ok CppType.float, n + 1) : Comp Nat CppType) 0
        = (Except.ok CppType.float, 1)) :=
  ⟨⟨Or.inl rfl,
      congrFun (C19_guard_transparent true CppType.BFloat16 (Or.inl rfl) Nat CppType
        (NameArg.stringLiteral "op") (fun n => (Except.ok CppType.BFloat16, n + 1))) 0⟩,
    ⟨Or.inr (by decide),
      congrFun (C19_guard_transparent false CppType.float (Or.inr (by decide)) Nat CppType
        (NameArg.stringLiteral "op") (fun n => (Except.ok CppType.float, n + 1))) 0⟩⟩

theorem compile_none_one {σ R : Type} (l b : SwitchLambda σ R) (x : ScalarType)
    (hl : l.labels = b.labels ++ [x]) (hb : b.labels.Nodup) :
    l.compile = none ↔ x ∈ b.labels := by
  rw [compile_eq_none_iff, hl, nodup_append_one _ hb]
  exact not_not

theorem compile_none_two {σ R : Type} (l b : SwitchLambda σ R) (x y : ScalarType)
    (hl : l.labels = b.labels ++ [x, y]) (hb : b.labels.Nodup) :
    l.compile = none ↔ x ∈ b.labels ∨ y ∈ b.labels ∨ x = y := by
  rw [compile_eq_none_iff, hl, nodup_append_two _ hb]
  tauto

theorem compile_none_three {σ R : Type} (l b : SwitchLambda σ R) (x y z : ScalarType)
    (hl : l.labels = b.labels ++ [x, y, z]) (hb : b.labels.Nodup) :
    l.compile = none
      ↔ x ∈ b.labels ∨ y ∈ b.labels ∨ z ∈ b.labels ∨ x = y ∨ x = z ∨ y = z := by
  rw [compile_eq_none_iff, hl, nodup_append_three _ hb]
  tauto

/-- C12: an `..._AND`, `..._AND2` or `..._AND3` use whose extra tag is already a case label of
the base profile, or names the same extra tag twice, does not compile: the switch has two
equal case labels, so nothing is built, whatever the tag expression, the name and the body
are, and there is no dispatch to produce a result or an error.  Conversely these are the
only uses of the eleven extended definitions that are rejected.  Examples:
`AT_DISPATCH_FLOATING_TYPES_AND` with extra tag `Float` and `AT_DISPATCH_ALL_TYPES_AND2`
with `Half` twice are rejected, `AT_DISPATCH_FLOATING_TYPES_AND` with `Half` is built. -/
theorem C12_duplicate_extension_rejected (σ R : Type) (TYPE : Comp σ ScalarType)
    (NAME : NameArg) (body : Body σ R) :
    (∀ X : ScalarType,
        (AT_DISPATCH_FLOATING_TYPES_AND X TYPE NAME body).compile = none
          ↔ X ∈ (AT_DISPATCH_FLOATING_TYPES TYPE NAME body).labels)
    ∧ (∀ X1 X2 : ScalarType,
        (AT_DISPATCH_FLOATING_TYPES_AND2 X1 X2 TYPE NAME body).compile = none
          ↔ X1 ∈ (AT_DISPATCH_FLOATING_TYPES TYPE NAME body).labels
            ∨ X2 ∈ (AT_DISPATCH_FLOATING_TYPES TYPE NAME body).labels ∨ X1 = X2)
    ∧ (∀ X : ScalarType,
        (AT_DISPATCH_FLOATING_AND_COMPLEX_TYPES_AND1 X TYPE NAME body).compile = none
          ↔ X ∈ (AT_DISPATCH_FLOATING_AND_COMPLEX_TYPES TYPE NAME body).labels)
    ∧ (∀ X1 X2 : ScalarType,
        (AT_DISPATCH_FLOATING_AND_COMPLEX_TYPES_AND2 X1 X2 TYPE NAME body).compile = none
          ↔ X1 ∈ (AT_DISPATCH_FLOATING_AND_COMPLEX_TYPES TYPE NAME body).labels
            ∨ X2 ∈ (AT_DISPATCH_FLOATING_AND_COMPLEX_TYPES TYPE NAME body).labels ∨ X1 = X2)
    ∧ (∀ X : ScalarType,
        (AT_DISPATCH_INTEGRAL_TYPES_AND X TYPE NAME body).compile = none
          ↔ X ∈ (AT_DISPATCH_INTEGRAL_TYPES TYPE NAME body).labels)
    ∧ (∀ X : ScalarType,
        (AT_DISPATCH_ALL_TYPES_AND X TYPE NAME body).compile = none
          ↔ X ∈ (AT_DISPATCH_ALL_TYPES TYPE NAME body).labels)
    ∧ (∀ X1 X2 : ScalarType,
        (AT_DISPATCH_ALL_TYPES_AND2 X1 X2 TYPE NAME body).compile = none
          ↔ X1 ∈ (AT_DISPATCH_ALL_TYPES TYPE NAME body).labels
            ∨ X2 ∈ (AT_DISPATCH_ALL_TYPES TYPE NAME body).labels ∨ X1 = X2)
    ∧ (∀ X1 X2 X3 : ScalarType,
        (AT_DISPATCH_ALL_TYPES_AND3 X1 X2 X3 TYPE NAME body).compile = none
          ↔ X1 ∈ (AT_DISPATCH_ALL_TYPES TYPE NAME body).labels
            ∨ X2 ∈ (AT_DISPATCH_ALL_TYPES TYPE NAME body).labels
            ∨ X3 ∈ (AT_DISPATCH_ALL_TYPES TYPE NAME body).labels
            ∨ X1 = X2 ∨ X1 = X3 ∨ X2 = X3)
    ∧ (∀ X : ScalarType,
        (AT_DISPATCH_ALL_TYPES_AND_COMPLEX_AND X TYPE NAME body).compile = none
          ↔ X ∈ (AT_DISPATCH_ALL_TYPES_AND_COMPLEX TYPE NAME body).labels)
    ∧ (∀ X1 X2 : ScalarType,
        (AT_DISPATCH_ALL_TYPES_AND_COMPLEX_AND2 X1 X2 TYPE NAME body).compile = none
          ↔ X1 ∈ (AT_DISPATCH_ALL_TYPES_AND_COMPLEX TYPE NAME body).labels
            ∨ X2 ∈ (AT_DISPATCH_ALL_TYPES_AND_COMPLEX TYPE NAME body).labels ∨ X1 = X2)
    ∧ (∀ X1 X2 X3 : ScalarType,
        (AT_DISPATCH_ALL_TYPES_AND_COMPLEX_AND3 X1 X2 X3 TYPE NAME body).compile = none
          ↔ X1 ∈ (AT_DISPATCH_ALL_TYPES_AND_COMPLEX TYPE NAME body).labels
            ∨ X2 ∈ (AT_DISPATCH_ALL_TYPES_AND_COMPLEX TYPE NAME body).labels
            ∨ X3 ∈ (AT_DISPATCH_ALL_TYPES_AND_COMPLEX TYPE NAME body).labels
            ∨ X1 = X2 ∨ X1 = X3 ∨ X2 = X3)
    ∧ (AT_DISPATCH_FLOATING_TYPES_AND ScalarType.Float TYPE NAME body).compile = none
    ∧ (AT_DISPATCH_ALL_TYPES_AND2 ScalarType.Half ScalarType.Half TYPE NAME body).compile
        = none
    ∧ (AT_DISPATCH_FLOATING_TYPES_AND ScalarType.Half TYPE NAME body).compile
        = some (AT_DISPATCH_FLOATING_TYPES_AND ScalarType.Half TYPE NAME body).invoke :=
  ⟨fun X => compile_none_one (AT_DISPATCH_FLOATING_TYPES_AND X TYPE NAME body)
      (AT_DISPATCH_FLOATING_TYPES TYPE NAME body) X rfl
      (nodup_labels_expand Profile.FLOATING_TYPES (by decide) TYPE NAME body),
    fun X1 X2 => compile_none_two (AT_DISPATCH_FLOATING_TYPES_AND2 X1 X2 TYPE NAME body)
      (AT_DISPATCH_FLOATING_TYPES TYPE NAME body) X1 X2 rfl
      (nodup_labels_expand Profile.FLOATING_TYPES (by decide) TYPE NAME body),
    fun X => compile_none_one (AT_DISPATCH_FLOATING_AND_COMPLEX_TYPES_AND1 X TYPE NAME body)
      (AT_DISPATCH_FLOATING_AND_COMPLEX_TYPES TYPE NAME body) X rfl
      (nodup_labels_expand Profile.FLOATING_AND_COMPLEX_TYPES (by decide) TYPE NAME body),
    fun X1 X2 => compile_none_two (AT_DISPATCH_FLOATING_AND_COMPLEX_TYPES_AND2 X1 X2 TYPE NAME body)
      (AT_DISPATCH_FLOATING_AND_COMPLEX_TYPES TYPE NAME body) X1 X2 rfl
      (nodup_labels_expand Profile.FLOATING_AND_COMPLEX_TYPES (by decide) TYPE NAME body),
    fun X => compile_none_one (AT_DISPATCH_INTEGRAL_TYPES_AND X TYPE NAME body)
      (AT_DISPATCH_INTEGRAL_TYPES TYPE NAME body) X rfl
      (nodup_labels_expand Profile.INTEGRAL_TYPES (by decide) TYPE NAME body),
    fun X => compile_none_one (AT_DISPATCH_ALL_TYPES_AND X TYPE NAME body)
      (AT_DISPATCH_ALL_TYPES TYPE NAME body) X rfl
      (nodup_labels_expand Profile.ALL_TYPES (by decide) TYPE NAME body),
    fun X1 X2 => compile_none_two (AT_DISPATCH_ALL_TYPES_AND2 X1 X2 TYPE NAME body)
      (AT_DISPATCH_ALL_TYPES TYPE NAME body) X1 X2 rfl
      (nodup_labels_expand Profile.ALL_TYPES (by decide) TYPE NAME body),
    fun X1 X2 X3 => compile_none_three (AT_DISPATCH_ALL_TYPES_AND3 X1 X2 X3 TYPE NAME body)
      (AT_DISPATCH_ALL_TYPES TYPE NAME body) X1 X2 X3 rfl
      (nodup_labels_expand Profile.ALL_TYPES (by decide) TYPE NAME body),
    fun X => compile_none_one (AT_DISPATCH_ALL_TYPES_AND_COMPLEX_AND X TYPE NAME body)
      (AT_DISPATCH_ALL_TYPES_AND_COMPLEX TYPE NAME body) X rfl
      (nodup_labels_expand Profile.ALL_TYPES_AND_COMPLEX (by decide) TYPE NAME body),
    fun X1 X2 => compile_none_two (AT_DISPATCH_ALL_TYPES_AND_COMPLEX_AND2 X1 X2 TYPE NAME body)
      (AT_DISPATCH_ALL_TYPES_AND_COMPLEX TYPE NAME body) X1 X2 rfl
      (nodup_labels_expand Profile.ALL_TYPES_AND_COMPLEX (by decide) TYPE NAME body),
    fun X1 X2 X3 => compile_none_three (AT_DISPATCH_ALL_TYPES_AND_COMPLEX_AND3 X1 X2 X3 TYPE NAME body)
      (AT_DISPATCH_ALL_TYPES_AND_COMPLEX TYPE NAME body) X1 X2 X3 rfl
      (nodup_labels_expand Profile.ALL_TYPES_AND_COMPLEX (by decide) TYPE NAME body),
    (compile_eq_none_iff _).2
      (fun h => absurd (labels_expand (Profile.FLOATING_TYPES_AND ScalarType.Float) TYPE NAME
        body ▸ h) (by decide)),
    (compile_eq_none_iff _).2
      (fun h => absurd (labels_expand (Profile.ALL_TYPES_AND2 ScalarType.Half ScalarType.Half)
        TYPE NAME body ▸ h) (by decide)),
    (compile_eq_some_iff _).2
      (nodup_labels_expand (Profile.FLOATING_TYPES_AND ScalarType.Half) (by decide) TYPE NAME
        body)⟩

theorem decls_scalar_t (p : Profile) (t : ScalarType) :
    (p.decls t).scalar_t = ScalarTypeToCPPType t := by
  cases p <;> rfl

/-- C15: dispatch is deterministic and keeps no state of its own.  For every profile, tag,
name and pure body (a body whose outcome `g` depends only on the names it is instantiated
with), the outcome of a dispatch is one fixed value `o`, whatever state it starts from, and
the state is left as it was; `o` is the body at one representation, the registry's for the
tag, or the reporter's error.  Hence a second dispatch after the first, or one from any
other state, selects the same representation and yields the identical outcome. -/
theorem C15_dispatch_deterministic (p : Profile) (t : ScalarType) (σ R : Type)
    (NAME : NameArg) (g : Bindings → Except Error R) (s s' : σ) :
    (∃ o : Except Error R,
        (∀ x : σ, dispatch p (Comp.pure t) NAME (fun b y => (g b, y)) x = (o, x))
        ∧ ((∃ b : Bindings, b.scalar_t = ScalarTypeToCPPType t ∧ o = g b)
          ∨ o = Except.error (UnsupportedType (stringize NAME) (toString t))))
    ∧ dispatch p (Comp.pure t) NAME (fun b y => (g b, y))
          (dispatch p (Comp.pure t) NAME (fun b y => (g b, y)) s).2
        = dispatch p (Comp.pure t) NAME (fun b y => (g b, y)) s
    ∧ (dispatch p (Comp.pure t) NAME (fun b y => (g b, y)) s).1
        = (dispatch p (Comp.pure t) NAME (fun b y => (g b, y)) s').1 := by
  by_cases ht : t ∈ p.caseLabels
  · have h : ∀ x : σ, dispatch p (Comp.pure t) NAME (fun b y => (g b, y)) x
        = (g (p.decls t), x) := fun x =>
      dispatch_bound p (Comp.pure t) NAME (fun b y => (g b, y)) x x t rfl ht
    refine ⟨⟨g (p.decls t), h, Or.inl ⟨p.decls t, decls_scalar_t p t, rfl⟩⟩, ?_, ?_⟩
    · rw [h s, h s]
    · rw [h s, h s']
  · have h : ∀ x : σ, dispatch p (Comp.pure t) NAME (fun b y => (g b, y)) x
        = (Except.error (UnsupportedType (stringize NAME) (toString t)), x) := fun x =>
      dispatch_unbound p t NAME (fun b y => (g b, y)) x ht
    refine ⟨⟨_, h, Or.inr rfl⟩, ?_, ?_⟩
    · rw [h s, h s]
    · rw [h s, h s']

/-- C16: the failure text is uniform across the family.  For every name and every tag `t`
that `AT_DISPATCH_FLOATING_TYPES` rejects, every profile that rejects `t` has exactly the
outcome `AT_DISPATCH_FLOATING_TYPES` has: the same error with the same text.  This covers
the definitions that print `toString(TYPE)` instead of `toString(_st)` and the two that
hand the tag itself to `AT_ERROR`, which renders a tag by its display name. -/
theorem C16_failure_text_uniform (p : Profile) (t : ScalarType) (hp : t ∉ p.caseLabels)
    (hf : t ∉ Profile.FLOATING_TYPES.caseLabels) (σ R : Type) (NAME : NameArg)
    (body : Body σ R) (s : σ) :
    dispatch p (Comp.pure t) NAME body s
        = (AT_DISPATCH_FLOATING_TYPES (Comp.pure t : Comp σ ScalarType) NAME body).invoke s
    ∧ (AT_DISPATCH_FLOATING_TYPES (Comp.pure t : Comp σ ScalarType) NAME body).invoke s
        = (Except.error
            { msg := stringize NAME ++ " not implemented for '" ++ toString t ++ "'" }, s)
    ∧ StrArg.render (StrArg.scalarType t) = StrArg.render (StrArg.text (toString t)) :=
  ⟨(dispatch_unbound p t NAME body s hp).trans
      (dispatch_unbound Profile.FLOATING_TYPES t NAME body s hf).symm,
    dispatch_unbound Profile.FLOATING_TYPES t NAME body s hf, rfl⟩

/-- C16, used: `AT_DISPATCH_ALL_TYPES_AND_COMPLEX_AND3(Half, Bool, BFloat16, ...)`, which
hands the tag itself to `AT_ERROR`, rejects `QInt8` with the text
`AT_DISPATCH_FLOATING_TYPES` gives. -/
theorem C16_failure_text_uniform_witness :
    ScalarType.QInt8 ∉ (Profile.ALL_TYPES_AND_COMPLEX_AND3 ScalarType.Half ScalarType.Bool
        ScalarType.BFloat16).caseLabels
    ∧ ScalarType.QInt8 ∉ Profile.FLOATING_TYPES.caseLabels
    ∧ (AT_DISPATCH_ALL_TYPES_AND_COMPLEX_AND3 ScalarType.Half ScalarType.Bool
          ScalarType.BFloat16 (Comp.pure ScalarType.QInt8) (NameArg.stringLiteral "copy_")
          (fun _ => (Comp.pure () : Comp Unit Unit))).invoke ()
        = (AT_DISPATCH_FLOATING_TYPES (Comp.pure ScalarType.QInt8 : Comp Unit ScalarType)
          (NameArg.stringLiteral "copy_") (fun _ => (Comp.pure () : Comp Unit Unit))).invoke
          () :=
  ⟨by decide, by decide,
    (C16_failure_text_uniform
      (Profile.ALL_TYPES_AND_COMPLEX_AND3 ScalarType.Half ScalarType.Bool ScalarType.BFloat16)
      ScalarType.QInt8 (by decide) (by decide) Unit Unit (NameArg.stringLiteral "copy_")
      (fun _ => (Comp.pure () : Comp Unit Unit)) ()).1⟩

/-- C17: on the success path every profile evaluates the tag expression exactly once and
runs the body exactly once.  With a tag expression and a body that count their runs, a
dispatch on a bound tag moves both counters by one; and for any tag expression and body the
dispatch is the tag expression evaluated once followed by the body run once. -/
theorem C17_success_path_once (p : Profile) (t : ScalarType) (ht : t ∈ p.caseLabels)
    (NAME : NameArg) (n m : Nat) :
    dispatch p (tagCounter t) NAME bodyCounter (n, m)
        = (Except.ok (ScalarTypeToCPPType t), (n + 1, m + 1))
    ∧ ∃ b : Bindings, ∀ (σ R : Type) (TYPE : Comp σ ScalarType) (body : Body σ R)
        (s s1 : σ), TYPE s = (Except.ok t, s1) →
          dispatch p TYPE NAME body s = Comp.bind TYPE (fun _ => body b) s := by
  constructor
  · rw [dispatch_bound p (tagCounter t) NAME bodyCounter (n, m) (n + 1, m) t rfl ht]
    show (Except.ok (p.decls t).scalar_t, (n + 1, m + 1)) = _
    rw [decls_scalar_t]
  · refine ⟨p.decls t, ?_⟩
    intro σ R TYPE body s s1 h
    rw [dispatch_bound p TYPE NAME body s s1 t h ht]
    unfold Comp.bind
    rw [h]

/-- C17, used: `AT_DISPATCH_ALL_TYPES_AND3(Half, Bool, BFloat16, ...)`, which switches on
`TYPE` itself, on the bound tag `Bool`. -/
theorem C17_success_path_once_witness :
    ScalarType.Bool ∈ (Profile.ALL_TYPES_AND3 ScalarType.Half ScalarType.Bool
        ScalarType.BFloat16).caseLabels
    ∧ (AT_DISPATCH_ALL_TYPES_AND3 ScalarType.Half ScalarType.Bool ScalarType.BFloat16
          (tagCounter ScalarType.Bool) (NameArg.stringLiteral "fill") bodyCounter).invoke
          (0, 0)
        = (Except.ok CppType.bool, (1, 1)) :=
  ⟨by decide,
    (C17_success_path_once
      (Profile.ALL_TYPES_AND3 ScalarType.Half ScalarType.Bool ScalarType.BFloat16)
      ScalarType.Bool (by decide) (NameArg.stringLiteral "fill") 0 0).1⟩

theorem and3_behaviour {σ R : Type} (e b : Profile) (X1 X2 X3 : ScalarType)
    (he : e.caseLabels = b.caseLabels ++ [X1, X2, X3])
    (hde : ∀ t, e.decls t = plainDecls t) (hdb : ∀ t, b.decls t = plainDecls t)
    (NAME : NameArg) (body : Body σ R) (s : σ) :
    dispatch e (Comp.pure X1) NAME body s = body { scalar_t := ScalarTypeToCPPType X1 } s
    ∧ dispatch e (Comp.pure X2) NAME body s = body { scalar_t := ScalarTypeToCPPType X2 } s
    ∧ dispatch e (Comp.pure X3) NAME body s = body { scalar_t := ScalarTypeToCPPType X3 } s
    ∧ (∀ t : ScalarType,
        (t ∈ b.caseLabels
          ∧ dispatch e (Comp.pure t) NAME body s = dispatch b (Comp.pure t) NAME body s
          ∧ dispatch e (Comp.pure t) NAME body s
              = body { scalar_t := ScalarTypeToCPPType t } s)
        ∨ ((t = X1 ∨ t = X2 ∨ t = X3)
          ∧ dispatch e (Comp.pure t) NAME body s
              = body { scalar_t := ScalarTypeToCPPType t } s)
        ∨ (t ∉ e.caseLabels ∧ t ∉ b.caseLabels ∧ t ≠ X1 ∧ t ≠ X2 ∧ t ≠ X3
          ∧ dispatch e (Comp.pure t) NAME body s
              = (Except.error (UnsupportedType (stringize NAME) (toString t)), s)))
    ∧ (∀ t : ScalarType,
        t ∈ e.caseLabels ↔ (t ∈ b.caseLabels ∨ t = X1 ∨ t = X2 ∨ t = X3)) := by
  have hmem : ∀ t : ScalarType,
      t ∈ e.caseLabels ↔ (t ∈ b.caseLabels ∨ t = X1 ∨ t = X2 ∨ t = X3) := by
    intro t
    rw [he]
    simp only [List.mem_append, List.mem_cons, List.mem_singleton, List.not_mem_nil,
      or_false]
  have hit : ∀ t, t ∈ e.caseLabels →
      dispatch e (Comp.pure t) NAME body s = body { scalar_t := ScalarTypeToCPPType t } s := by
    intro t ht
    rw [dispatch_bound e (Comp.pure t) NAME body s s t rfl ht, hde t]
    rfl
  refine ⟨hit X1 ((hmem X1).2 (Or.inr (Or.inl rfl))),
    hit X2 ((hmem X2).2 (Or.inr (Or.inr (Or.inl rfl)))),
    hit X3 ((hmem X3).2 (Or.inr (Or.inr (Or.inr rfl)))), ?_, hmem⟩
  intro t
  by_cases hb : t ∈ b.caseLabels
  · have hte := (hmem t).2 (Or.inl hb)
    refine Or.inl ⟨hb, ?_, hit t hte⟩
    rw [hit t hte, dispatch_bound b (Comp.pure t) NAME body s s t rfl hb, hdb t]
    rfl
  · by_cases hx : t = X1 ∨ t = X2 ∨ t = X3
    · exact Or.inr (Or.inl ⟨hx, hit t ((hmem t).2 (Or.inr hx))⟩)
    · have hte : t ∉ e.caseLabels := fun h => ((hmem t).1 h).elim hb hx
      exact Or.inr (Or.inr ⟨hte, hb, fun h => hx (Or.inl h),
        fun h => hx (Or.inr (Or.inl h)), fun h => hx (Or.inr (Or.inr h)),
        dispatch_unbound e t NAME body s hte⟩)

/-- C18: `AT_DISPATCH_ALL_TYPES_AND3` and `AT_DISPATCH_ALL_TYPES_AND_COMPLEX_AND3` with three
pairwise distinct extra tags outside the base set bind exactly the base tags and the three
extra tags.  The case labels are the base labels followed by `X1`, `X2`, `X3`, so a tag is
bound exactly when it is a base tag or one of the extras.  For every tag one of three
things holds: it is a base tag, and the dispatch has the outcome it has under the base
profile, the body at the tag's base representation; or it is one of the extra tags, and the
dispatch runs the body with the representation the registry assigns to it; or it is
neither, it is not a case label, and the dispatch is rejected with the reporter's error.
The all-types variant is built for such extras; the all+complex variant is built exactly
when the extras are outside its own, larger base set as well. -/
theorem C18_and3_binds_base_and_extras (X1 X2 X3 : ScalarType)
    (h12 : X1 ≠ X2) (h13 : X1 ≠ X3) (h23 : X2 ≠ X3)
    (h1 : X1 ∉ Profile.ALL_TYPES.caseLabels) (h2 : X2 ∉ Profile.ALL_TYPES.caseLabels)
    (h3 : X3 ∉ Profile.ALL_TYPES.caseLabels)
    (σ R : Type) (NAME : NameArg) (body : Body σ R) (s : σ) :
    ((AT_DISPATCH_ALL_TYPES_AND3 X1 X2 X3 (Comp.pure X1) NAME body).compile
        = some (AT_DISPATCH_ALL_TYPES_AND3 X1 X2 X3 (Comp.pure X1) NAME body).invoke
      ∧ (AT_DISPATCH_ALL_TYPES_AND3 X1 X2 X3 (Comp.pure X1) NAME body).labels
          = (AT_DISPATCH_ALL_TYPES (Comp.pure X1 : Comp σ ScalarType) NAME body).labels ++ [X1, X2, X3]
      ∧ (AT_DISPATCH_ALL_TYPES_AND3 X1 X2 X3 (Comp.pure X1) NAME body).invoke s
          = body { scalar_t := ScalarTypeToCPPType X1 } s
      ∧ (AT_DISPATCH_ALL_TYPES_AND3 X1 X2 X3 (Comp.pure X2) NAME body).invoke s
          = body { scalar_t := ScalarTypeToCPPType X2 } s
      ∧ (AT_DISPATCH_ALL_TYPES_AND3 X1 X2 X3 (Comp.pure X3) NAME body).invoke s
          = body { scalar_t := ScalarTypeToCPPType X3 } s
      ∧ (∀ t : ScalarType,
          (t ∈ (AT_DISPATCH_ALL_TYPES (Comp.pure t : Comp σ ScalarType) NAME body).labels
            ∧ (AT_DISPATCH_ALL_TYPES_AND3 X1 X2 X3 (Comp.pure t) NAME body).invoke s
                = (AT_DISPATCH_ALL_TYPES (Comp.pure t : Comp σ ScalarType) NAME body).invoke s
            ∧ (AT_DISPATCH_ALL_TYPES_AND3 X1 X2 X3 (Comp.pure t) NAME body).invoke s
                = body { scalar_t := ScalarTypeToCPPType t } s)
          ∨ ((t = X1 ∨ t = X2 ∨ t = X3)
            ∧ (AT_DISPATCH_ALL_TYPES_AND3 X1 X2 X3 (Comp.pure t) NAME body).invoke s
                = body { scalar_t := ScalarTypeToCPPType t } s)
          ∨ (t ∉ (AT_DISPATCH_ALL_TYPES_AND3 X1 X2 X3 (Comp.pure t) NAME body).labels
            ∧ t ∉ (AT_DISPATCH_ALL_TYPES (Comp.pure t : Comp σ ScalarType) NAME body).labels
            ∧ t ≠ X1 ∧ t ≠ X2 ∧ t ≠ X3
            ∧ (AT_DISPATCH_ALL_TYPES_AND3 X1 X2 X3 (Comp.pure t) NAME body).invoke s
                = (Except.error (UnsupportedType (stringize NAME) (toString t)), s)))
      ∧ (∀ t : ScalarType,
          t ∈ (AT_DISPATCH_ALL_TYPES_AND3 X1 X2 X3 (Comp.pure t) NAME body).labels
            ↔ (t ∈ (AT_DISPATCH_ALL_TYPES (Comp.pure t : Comp σ ScalarType) NAME body).labels
              ∨ t = X1 ∨ t = X2 ∨ t = X3)))
    ∧ (((AT_DISPATCH_ALL_TYPES_AND_COMPLEX_AND3 X1 X2 X3 (Comp.pure X1) NAME body).compile
          = some (AT_DISPATCH_ALL_TYPES_AND_COMPLEX_AND3 X1 X2 X3 (Comp.pure X1) NAME
              body).invoke
        ↔ X1 ∉ Profile.ALL_TYPES_AND_COMPLEX.caseLabels
          ∧ X2 ∉ Profile.ALL_TYPES_AND_COMPLEX.caseLabels
          ∧ X3 ∉ Profile.ALL_TYPES_AND_COMPLEX.caseLabels)
      ∧ (AT_DISPATCH_ALL_TYPES_AND_COMPLEX_AND3 X1 X2 X3 (Comp.pure X1) NAME body).labels
          = (AT_DISPATCH_ALL_TYPES_AND_COMPLEX (Comp.pure X1 : Comp σ ScalarType) NAME body).labels ++ [X1, X2, X3]
      ∧ (AT_DISPATCH_ALL_TYPES_AND_COMPLEX_AND3 X1 X2 X3 (Comp.pure X1) NAME body).invoke s
          = body { scalar_t := ScalarTypeToCPPType X1 } s
      ∧ (AT_DISPATCH_ALL_TYPES_AND_COMPLEX_AND3 X1 X2 X3 (Comp.pure X2) NAME body).invoke s
          = body { scalar_t := ScalarTypeToCPPType X2 } s
      ∧ (AT_DISPATCH_ALL_TYPES_AND_COMPLEX_AND3 X1 X2 X3 (Comp.pure X3) NAME body).invoke s
          = body { scalar_t := ScalarTypeToCPPType X3 } s
      ∧ (∀ t : ScalarType,
          (t ∈ (AT_DISPATCH_ALL_TYPES_AND_COMPLEX (Comp.pure t : Comp σ ScalarType) NAME body).labels
            ∧ (AT_DISPATCH_ALL_TYPES_AND_COMPLEX_AND3 X1 X2 X3 (Comp.pure t) NAME body).invoke s
                = (AT_DISPATCH_ALL_TYPES_AND_COMPLEX (Comp.pure t : Comp σ ScalarType) NAME body).invoke s
            ∧ (AT_DISPATCH_ALL_TYPES_AND_COMPLEX_AND3 X1 X2 X3 (Comp.pure t) NAME body).invoke s
                = body { scalar_t := ScalarTypeToCPPType t } s)
          ∨ ((t = X1 ∨ t = X2 ∨ t = X3)
            ∧ (AT_DISPATCH_ALL_TYPES_AND_COMPLEX_AND3 X1 X2 X3 (Comp.pure t) NAME body).invoke s
                = body { scalar_t := ScalarTypeToCPPType t } s)
          ∨ (t ∉ (AT_DISPATCH_ALL_TYPES_AND_COMPLEX_AND3 X1 X2 X3 (Comp.pure t) NAME body).labels
            ∧ t ∉ (AT_DISPATCH_ALL_TYPES_AND_COMPLEX (Comp.pure t : Comp σ ScalarType) NAME body).labels
            ∧ t ≠ X1 ∧ t ≠ X2 ∧ t ≠ X3
            ∧ (AT_DISPATCH_ALL_TYPES_AND_COMPLEX_AND3 X1 X2 X3 (Comp.pure t) NAME body).invoke s
                = (Except.error (UnsupportedType (stringize NAME) (toString t)), s)))
      ∧ (∀ t : ScalarType,
          t ∈ (AT_DISPATCH_ALL_TYPES_AND_COMPLEX_AND3 X1 X2 X3 (Comp.pure t) NAME body).labels
            ↔ (t ∈ (AT_DISPATCH_ALL_TYPES_AND_COMPLEX (Comp.pure t : Comp σ ScalarType) NAME body).labels
              ∨ t = X1 ∨ t = X2 ∨ t = X3))) := by
  refine ⟨⟨?_, rfl, ?_⟩, ⟨?_, rfl, ?_⟩⟩
  · rw [compile_eq_some_iff]
    show (Profile.ALL_TYPES.caseLabels ++ [X1, X2, X3]).Nodup
    rw [nodup_append_three _ (by decide)]
    exact ⟨h1, h2, h3, h12, h13, h23⟩
  · exact and3_behaviour (Profile.ALL_TYPES_AND3 X1 X2 X3) Profile.ALL_TYPES X1 X2 X3 rfl
      (fun _ => rfl) (fun _ => rfl) NAME body s
  · rw [compile_eq_some_iff]
    show (Profile.ALL_TYPES_AND_COMPLEX.caseLabels ++ [X1, X2, X3]).Nodup ↔ _
    rw [nodup_append_three _ (by decide)]
    tauto
  · exact and3_behaviour (Profile.ALL_TYPES_AND_COMPLEX_AND3 X1 X2 X3)
      Profile.ALL_TYPES_AND_COMPLEX X1 X2 X3 rfl (fun _ => rfl) (fun _ => rfl) NAME body s

/-- C18, used: extras `Half`, `Bool`, `BFloat16`; the second extra tag runs the body at
`bool`. -/
theorem C18_and3_binds_base_and_extras_witness :
    ScalarType.Half ≠ ScalarType.Bool ∧ ScalarType.Half ≠ ScalarType.BFloat16
    ∧ ScalarType.Bool ≠ ScalarType.BFloat16
    ∧ ScalarType.Half ∉ Profile.ALL_TYPES.caseLabels
    ∧ ScalarType.Bool ∉ Profile.ALL_TYPES.caseLabels
    ∧ ScalarType.BFloat16 ∉ Profile.ALL_TYPES.caseLabels
    ∧ (AT_DISPATCH_ALL_TYPES_AND3 ScalarType.Half ScalarType.Bool ScalarType.BFloat16
          (Comp.pure ScalarType.Bool) (NameArg.stringLiteral "where")
          (fun b => (Comp.pure b.scalar_t : Comp Unit CppType))).invoke ()
        = (Except.ok CppType.bool, ()) :=
  ⟨by decide, by decide, by decide, by decide, by decide, by decide,
    (C18_and3_binds_base_and_extras ScalarType.Half ScalarType.Bool ScalarType.BFloat16
      (by decide) (by decide) (by decide) (by decide) (by decide) (by decide) Unit CppType
      (NameArg.stringLiteral "where") (fun b => (Comp.pure b.scalar_t : Comp Unit CppType))
      ()).1.2.2.2.1⟩

/-- C20: the all-types profile is the disjoint union of the integral and the floating
profile.  No tag is a case label of both `AT_DISPATCH_INTEGRAL_TYPES` and
`AT_DISPATCH_FLOATING_TYPES`; a tag is a case label of `AT_DISPATCH_ALL_TYPES` exactly when
it is a case label of one of the two; and for every tag, name and body,
`AT_DISPATCH_ALL_TYPES` either has the outcome of the integral profile, on an integral tag,
or the outcome of the floating profile, on a floating tag (in both cases the body at the
same representation), or all three profiles reject the tag with the same error. -/
theorem C20_all_is_integral_plus_floating (σ R : Type) (NAME : NameArg) (body : Body σ R)
    (s : σ) :
    (∀ t : ScalarType,
        ¬ (t ∈ (AT_DISPATCH_INTEGRAL_TYPES (Comp.pure t : Comp σ ScalarType) NAME body).labels
          ∧ t ∈ (AT_DISPATCH_FLOATING_TYPES (Comp.pure t : Comp σ ScalarType) NAME
              body).labels))
    ∧ (∀ t : ScalarType,
        t ∈ (AT_DISPATCH_ALL_TYPES (Comp.pure t : Comp σ ScalarType) NAME body).labels
          ↔ (t ∈ (AT_DISPATCH_INTEGRAL_TYPES (Comp.pure t : Comp σ ScalarType) NAME
                body).labels
            ∨ t ∈ (AT_DISPATCH_FLOATING_TYPES (Comp.pure t : Comp σ ScalarType) NAME
                body).labels))
    ∧ (∀ t : ScalarType,
        (t ∈ (AT_DISPATCH_INTEGRAL_TYPES (Comp.pure t : Comp σ ScalarType) NAME body).labels
          ∧ (AT_DISPATCH_ALL_TYPES (Comp.pure t : Comp σ ScalarType) NAME body).invoke s
              = (AT_DISPATCH_INTEGRAL_TYPES (Comp.pure t : Comp σ ScalarType) NAME
                  body).invoke s
          ∧ (AT_DISPATCH_ALL_TYPES (Comp.pure t : Comp σ ScalarType) NAME body).invoke s
              = body { scalar_t := ScalarTypeToCPPType t } s)
        ∨ (t ∈ (AT_DISPATCH_FLOATING_TYPES (Comp.pure t : Comp σ ScalarType) NAME
              body).labels
          ∧ (AT_DISPATCH_ALL_TYPES (Comp.pure t : Comp σ ScalarType) NAME body).invoke s
              = (AT_DISPATCH_FLOATING_TYPES (Comp.pure t : Comp σ ScalarType) NAME
                  body).invoke s
          ∧ (AT_DISPATCH_ALL_TYPES (Comp.pure t : Comp σ ScalarType) NAME body).invoke s
              = body { scalar_t := ScalarTypeToCPPType t } s)
        ∨ (t ∉ (AT_DISPATCH_ALL_TYPES (Comp.pure t : Comp σ ScalarType) NAME body).labels
          ∧ (AT_DISPATCH_ALL_TYPES (Comp.pure t : Comp σ ScalarType) NAME body).invoke s
              = (Except.error (UnsupportedType (stringize NAME) (toString t)), s)
          ∧ (AT_DISPATCH_INTEGRAL_TYPES (Comp.pure t : Comp σ ScalarType) NAME
                body).invoke s
              = (Except.error (UnsupportedType (stringize NAME) (toString t)), s)
          ∧ (AT_DISPATCH_FLOATING_TYPES (Comp.pure t : Comp σ ScalarType) NAME
                body).invoke s
              = (Except.error (UnsupportedType (stringize NAME) (toString t)), s))) := by
  have hdisj : ∀ t : ScalarType,
      ¬ (t ∈ Profile.INTEGRAL_TYPES.caseLabels ∧ t ∈ Profile.FLOATING_TYPES.caseLabels) := by
    intro t
    cases t <;> decide
  have hunion : ∀ t : ScalarType, t ∈ Profile.ALL_TYPES.caseLabels
      ↔ (t ∈ Profile.INTEGRAL_TYPES.caseLabels ∨ t ∈ Profile.FLOATING_TYPES.caseLabels) := by
    intro t
    cases t <;> decide
  refine ⟨hdisj, hunion, ?_⟩
  intro t
  have ok : ∀ p : Profile, (∀ u, p.decls u = plainDecls u) → t ∈ p.caseLabels →
      dispatch p (Comp.pure t) NAME body s
        = body { scalar_t := ScalarTypeToCPPType t } s := by
    intro p hd ht
    rw [dispatch_bound p (Comp.pure t) NAME body s s t rfl ht, hd t]
    rfl
  by_cases hi : t ∈ Profile.INTEGRAL_TYPES.caseLabels
  · have ha := (hunion t).2 (Or.inl hi)
    exact Or.inl ⟨hi,
      (ok Profile.ALL_TYPES (fun _ => rfl) ha).trans
        (ok Profile.INTEGRAL_TYPES (fun _ => rfl) hi).symm,
      ok Profile.ALL_TYPES (fun _ => rfl) ha⟩
  · by_cases hf : t ∈ Profile.FLOATING_TYPES.caseLabels
    · have ha := (hunion t).2 (Or.inr hf)
      exact Or.inr (Or.inl ⟨hf,
        (ok Profile.ALL_TYPES (fun _ => rfl) ha).trans
          (ok Profile.FLOATING_TYPES (fun _ => rfl) hf).symm,
        ok Profile.ALL_TYPES (fun _ => rfl) ha⟩)
    · have ha : t ∉ Profile.ALL_TYPES.caseLabels := fun h =>
        ((hunion t).1 h).elim hi hf
      exact Or.inr (Or.inr ⟨ha, dispatch_unbound Profile.ALL_TYPES t NAME body s ha,
        dispatch_unbound Profile.INTEGRAL_TYPES t NAME body s hi,
        dispatch_unbound Profile.FLOATING_TYPES t NAME body s hf⟩)

theorem union_behaviour {σ R : Type} (u a b : Profile)
    (hdu : ∀ t, u.decls t = plainDecls t) (hda : ∀ t, a.decls t = plainDecls t)
    (hdb : ∀ t, b.decls t = plainDecls t)
    (hunion : ∀ t, t ∈ u.caseLabels ↔ (t ∈ a.caseLabels ∨ t ∈ b.caseLabels))
    (NAME : NameArg) (body : Body σ R) (s : σ) (t : ScalarType) :
    (t ∈ a.caseLabels
      ∧ dispatch u (Comp.pure t) NAME body s = dispatch a (Comp.pure t) NAME body s
      ∧ dispatch u (Comp.pure t) NAME body s = body { scalar_t := ScalarTypeToCPPType t } s)
    ∨ (t ∈ b.caseLabels
      ∧ dispatch u (Comp.pure t) NAME body s = dispatch b (Comp.pure t) NAME body s
      ∧ dispatch u (Comp.pure t) NAME body s = body { scalar_t := ScalarTypeToCPPType t } s)
    ∨ (t ∉ u.caseLabels
      ∧ dispatch u (Comp.pure t) NAME body s
          = (Except.error (UnsupportedType (stringize NAME) (toString t)), s)
      ∧ dispatch a (Comp.pure t) NAME body s
          = (Except.error (UnsupportedType (stringize NAME) (toString t)), s)
      ∧ dispatch b (Comp.pure t) NAME body s
          = (Except.error (UnsupportedType (stringize NAME) (toString t)), s)) := by
  have ok : ∀ p : Profile, (∀ x, p.decls x = plainDecls x) → t ∈ p.caseLabels →
      dispatch p (Comp.pure t) NAME body s
        = body { scalar_t := ScalarTypeToCPPType t } s := by
    intro p hd ht
    rw [dispatch_bound p (Comp.pure t) NAME body s s t rfl ht, hd t]
    rfl
  by_cases ha : t ∈ a.caseLabels
  · have hu := (hunion t).2 (Or.inl ha)
    exact Or.inl ⟨ha, (ok u hdu hu).trans (ok a hda ha).symm, ok u hdu hu⟩
  · by_cases hb : t ∈ b.caseLabels
    · have hu := (hunion t).2 (Or.inr hb)
      exact Or.inr (Or.inl ⟨hb, (ok u hdu hu).trans (ok b hdb hb).symm, ok u hdu hu⟩)
    · have hu : t ∉ u.caseLabels := fun h => ((hunion t).1 h).elim ha hb
      exact Or.inr (Or.inr ⟨hu, dispatch_unbound u t NAME body s hu,
        dispatch_unbound a t NAME body s ha, dispatch_unbound b t NAME body s hb⟩)

/-! ## The claims, concluded -/

/-- C21: the complex-inclusive profiles are the union of their base profile with the complex
profile.  A tag is a case label of `AT_DISPATCH_ALL_TYPES_AND_COMPLEX` exactly when it is one
of `AT_DISPATCH_ALL_TYPES` or of `AT_DISPATCH_COMPLEX_TYPES`, and for every tag, name and
body the all+complex profile has the outcome of the all-types profile, or the outcome of the
complex profile (in both cases the body at the same representation), or all three reject
the tag with the same error.  The same holds for `AT_DISPATCH_FLOATING_AND_COMPLEX_TYPES`
against `AT_DISPATCH_FLOATING_TYPES` and `AT_DISPATCH_COMPLEX_TYPES`, although it lists the
two complex cases in the other order. -/
theorem C21_complex_profiles_are_unions (σ R : Type) (NAME : NameArg) (body : Body σ R)
    (s : σ) :
    (∀ t : ScalarType,
        t ∈ (AT_DISPATCH_ALL_TYPES_AND_COMPLEX (Comp.pure t : Comp σ ScalarType) NAME body).labels
          ↔ (t ∈ (AT_DISPATCH_ALL_TYPES (Comp.pure t : Comp σ ScalarType) NAME body).labels
            ∨ t ∈ (AT_DISPATCH_COMPLEX_TYPES (Comp.pure t : Comp σ ScalarType) NAME body).labels))
    ∧ (∀ t : ScalarType,
        (t ∈ (AT_DISPATCH_ALL_TYPES (Comp.pure t : Comp σ ScalarType) NAME body).labels
          ∧ (AT_DISPATCH_ALL_TYPES_AND_COMPLEX (Comp.pure t : Comp σ ScalarType) NAME body).invoke s
              = (AT_DISPATCH_ALL_TYPES (Comp.pure t : Comp σ ScalarType) NAME body).invoke s
          ∧ (AT_DISPATCH_ALL_TYPES_AND_COMPLEX (Comp.pure t : Comp σ ScalarType) NAME body).invoke s
              = body { scalar_t := ScalarTypeToCPPType t } s)
        ∨ (t ∈ (AT_DISPATCH_COMPLEX_TYPES (Comp.pure t : Comp σ ScalarType) NAME body).labels
          ∧ (AT_DISPATCH_ALL_TYPES_AND_COMPLEX (Comp.pure t : Comp σ ScalarType) NAME body).invoke s
              = (AT_DISPATCH_COMPLEX_TYPES (Comp.pure t : Comp σ ScalarType) NAME body).invoke s
          ∧ (AT_DISPATCH_ALL_TYPES_AND_COMPLEX (Comp.pure t : Comp σ ScalarType) NAME body).invoke s
              = body { scalar_t := ScalarTypeToCPPType t } s)
        ∨ (t ∉ (AT_DISPATCH_ALL_TYPES_AND_COMPLEX (Comp.pure t : Comp σ ScalarType) NAME body).labels
          ∧ (AT_DISPATCH_ALL_TYPES_AND_COMPLEX (Comp.pure t : Comp σ ScalarType) NAME body).invoke s
              = (Except.error (UnsupportedType (stringize NAME) (toString t)), s)
          ∧ (AT_DISPATCH_ALL_TYPES (Comp.pure t : Comp σ ScalarType) NAME body).invoke s
              = (Except.error (UnsupportedType (stringize NAME) (toString t)), s)
          ∧ (AT_DISPATCH_COMPLEX_TYPES (Comp.pure t : Comp σ ScalarType) NAME body).invoke s
              = (Except.error (UnsupportedType (stringize NAME) (toString t)), s)))
    ∧ (∀ t : ScalarType,
        t ∈ (AT_DISPATCH_FLOATING_AND_COMPLEX_TYPES (Comp.pure t : Comp σ ScalarType) NAME body).labels
          ↔ (t ∈ (AT_DISPATCH_FLOATING_TYPES (Comp.pure t : Comp σ ScalarType) NAME body).labels
            ∨ t ∈ (AT_DISPATCH_COMPLEX_TYPES (Comp.pure t : Comp σ ScalarType) NAME body).labels))
    ∧ (∀ t : ScalarType,
        (t ∈ (AT_DISPATCH_FLOATING_TYPES (Comp.pure t : Comp σ ScalarType) NAME body).labels
          ∧ (AT_DISPATCH_FLOATING_AND_COMPLEX_TYPES (Comp.pure t : Comp σ ScalarType) NAME body).invoke s
              = (AT_DISPATCH_FLOATING_TYPES (Comp.pure t : Comp σ ScalarType) NAME body).invoke s
          ∧ (AT_DISPATCH_FLOATING_AND_COMPLEX_TYPES (Comp.pure t : Comp σ ScalarType) NAME body).invoke s
              = body { scalar_t := ScalarTypeToCPPType t } s)
        ∨ (t ∈ (AT_DISPATCH_COMPLEX_TYPES (Comp.pure t : Comp σ ScalarType) NAME body).labels
          ∧ (AT_DISPATCH_FLOATING_AND_COMPLEX_TYPES (Comp.pure t : Comp σ ScalarType) NAME body).invoke s
              = (AT_DISPATCH_COMPLEX_TYPES (Comp.pure t : Comp σ ScalarType) NAME body).invoke s
          ∧ (AT_DISPATCH_FLOATING_AND_COMPLEX_TYPES (Comp.pure t : Comp σ ScalarType) NAME body).invoke s
              = body { scalar_t := ScalarTypeToCPPType t } s)
        ∨ (t ∉ (AT_DISPATCH_FLOATING_AND_COMPLEX_TYPES (Comp.pure t : Comp σ ScalarType) NAME body).labels
          ∧ (AT_DISPATCH_FLOATING_AND_COMPLEX_TYPES (Comp.pure t : Comp σ ScalarType) NAME body).invoke s
              = (Except.error (UnsupportedType (stringize NAME) (toString t)), s)
          ∧ (AT_DISPATCH_FLOATING_TYPES (Comp.pure t : Comp σ ScalarType) NAME body).invoke s
              = (Except.error (UnsupportedType (stringize NAME) (toString t)), s)
          ∧ (AT_DISPATCH_COMPLEX_TYPES (Comp.pure t : Comp σ ScalarType) NAME body).invoke s
              = (Except.error (UnsupportedType (stringize NAME) (toString t)), s)))
    ∧ (AT_DISPATCH_FLOATING_AND_COMPLEX_TYPES (Comp.pure ScalarType.Byte : Comp σ ScalarType)
          NAME body).labels
        = [ScalarType.Double, ScalarType.Float, ScalarType.ComplexDouble,
            ScalarType.ComplexFloat]
    ∧ (AT_DISPATCH_COMPLEX_TYPES (Comp.pure ScalarType.Byte : Comp σ ScalarType) NAME
          body).labels = [ScalarType.ComplexFloat, ScalarType.ComplexDouble] := by
  have h1 : ∀ t : ScalarType, t ∈ Profile.ALL_TYPES_AND_COMPLEX.caseLabels
      ↔ (t ∈ Profile.ALL_TYPES.caseLabels ∨ t ∈ Profile.COMPLEX_TYPES.caseLabels) := by
    intro t
    cases t <;> decide
  have h2 : ∀ t : ScalarType, t ∈ Profile.FLOATING_AND_COMPLEX_TYPES.caseLabels
      ↔ (t ∈ Profile.FLOATING_TYPES.caseLabels ∨ t ∈ Profile.COMPLEX_TYPES.caseLabels) := by
    intro t
    cases t <;> decide
  exact ⟨h1,
    fun t => union_behaviour Profile.ALL_TYPES_AND_COMPLEX Profile.ALL_TYPES
      Profile.COMPLEX_TYPES (fun _ => rfl) (fun _ => rfl) (fun _ => rfl) h1 NAME body s t,
    h2,
    fun t => union_behaviour Profile.FLOATING_AND_COMPLEX_TYPES Profile.FLOATING_TYPES
      Profile.COMPLEX_TYPES (fun _ => rfl) (fun _ => rfl) (fun _ => rfl) h2 NAME body s t,
    rfl, rfl⟩

theorem invoke_congr {σ R : Type} (l m : SwitchLambda σ R)
    (hs : ∀ x, l.scrutinee x = m.scrutinee x) (hc : l.cases = m.cases)
    (hd : l.default = m.default) (s : σ) : l.invoke s = m.invoke s := by
  show Comp.bind l.scrutinee _ s = Comp.bind m.scrutinee _ s
  unfold Comp.bind
  rw [hs s, hc, hd]

theorem scrutinee_normalised {σ : Type} (TYPE : Comp σ DeprecatedTypeProperties) (s : σ) :
    Comp.bind TYPE (fun d => Comp.pure (detail.scalar_type d)) s
      = Comp.bind (Comp.bind TYPE (fun x => Comp.pure (DeprecatedTypeProperties.scalarType x)))
          (fun st => Comp.pure (detail.scalar_type st)) s := by
  unfold Comp.bind
  rcases h : TYPE s with ⟨r, s1⟩
  cases r <;> rfl

/-- C22: the named floating+half profile coincides with the floating profile extended by
`Half`: the two switches have the same case blocks (`Half` bound to `at::Half` in both),
and for every tag, name and body `AT_DISPATCH_FLOATING_TYPES_AND_HALF` has the outcome of
`AT_DISPATCH_FLOATING_TYPES_AND(at::ScalarType::Half, ...)`, the same body run or the same
error. -/
theorem C22_floating_and_half_is_extension (t : ScalarType) (σ R : Type)
    (TYPE : Comp σ ScalarType) (NAME : NameArg) (body : Body σ R) (s : σ) :
    (AT_DISPATCH_FLOATING_TYPES_AND_HALF (Comp.pure t : Comp σ ScalarType) NAME body).invoke s
        = (AT_DISPATCH_FLOATING_TYPES_AND ScalarType.Half (Comp.pure t) NAME body).invoke s
    ∧ (AT_DISPATCH_FLOATING_TYPES_AND_HALF TYPE NAME body).cases
        = (AT_DISPATCH_FLOATING_TYPES_AND ScalarType.Half TYPE NAME body).cases
    ∧ (AT_DISPATCH_FLOATING_TYPES_AND_HALF (Comp.pure ScalarType.Half : Comp σ ScalarType)
          NAME body).invoke s = body { scalar_t := CppType.Half } s
    ∧ (AT_DISPATCH_FLOATING_TYPES_AND ScalarType.Half (Comp.pure ScalarType.Half) NAME
          body).invoke s = body { scalar_t := CppType.Half } s :=
  ⟨dispatch_congr_labels Profile.FLOATING_TYPES_AND_HALF
      (Profile.FLOATING_TYPES_AND ScalarType.Half) t Iff.rfl rfl NAME body s,
    rfl, rfl, rfl⟩

/-- C23: the order of the extra tags is irrelevant.  For all extra tags `X`, `Y` and every
tag, name and body, `AT_DISPATCH_ALL_TYPES_AND2(X, Y, ...)` has the outcome of
`AT_DISPATCH_ALL_TYPES_AND2(Y, X, ...)`, and likewise `AT_DISPATCH_FLOATING_TYPES_AND2`;
and one order is rejected by the compiler exactly when the other is.  No assumption on `X`
and `Y` is needed for this. -/
theorem C23_extension_order_irrelevant (X Y t : ScalarType) (σ R : Type)
    (TYPE : Comp σ ScalarType) (NAME : NameArg) (body : Body σ R) (s : σ) :
    (AT_DISPATCH_ALL_TYPES_AND2 X Y (Comp.pure t) NAME body).invoke s
        = (AT_DISPATCH_ALL_TYPES_AND2 Y X (Comp.pure t) NAME body).invoke s
    ∧ (AT_DISPATCH_FLOATING_TYPES_AND2 X Y (Comp.pure t) NAME body).invoke s
        = (AT_DISPATCH_FLOATING_TYPES_AND2 Y X (Comp.pure t) NAME body).invoke s
    ∧ ((AT_DISPATCH_ALL_TYPES_AND2 X Y TYPE NAME body).compile = none
        ↔ (AT_DISPATCH_ALL_TYPES_AND2 Y X TYPE NAME body).compile = none)
    ∧ ((AT_DISPATCH_FLOATING_TYPES_AND2 X Y TYPE NAME body).compile = none
        ↔ (AT_DISPATCH_FLOATING_TYPES_AND2 Y X TYPE NAME body).compile = none) := by
  refine ⟨?_, ?_, ?_, ?_⟩
  · refine dispatch_congr_labels (Profile.ALL_TYPES_AND2 X Y) (Profile.ALL_TYPES_AND2 Y X) t
      ?_ rfl NAME body s
    show t ∈ Profile.ALL_TYPES.caseLabels ++ [X, Y]
      ↔ t ∈ Profile.ALL_TYPES.caseLabels ++ [Y, X]
    simp only [List.mem_append, List.mem_cons, List.mem_singleton, List.not_mem_nil,
      or_false]
    tauto
  · refine dispatch_congr_labels (Profile.FLOATING_TYPES_AND2 X Y)
      (Profile.FLOATING_TYPES_AND2 Y X) t ?_ rfl NAME body s
    show t ∈ Profile.FLOATING_TYPES.caseLabels ++ [X, Y]
      ↔ t ∈ Profile.FLOATING_TYPES.caseLabels ++ [Y, X]
    simp only [List.mem_append, List.mem_cons, List.mem_singleton, List.not_mem_nil,
      or_false]
    tauto
  · rw [compile_none_two (AT_DISPATCH_ALL_TYPES_AND2 X Y TYPE NAME body)
        (AT_DISPATCH_ALL_TYPES TYPE NAME body) X Y rfl
        (nodup_labels_expand Profile.ALL_TYPES (by decide) TYPE NAME body),
      compile_none_two (AT_DISPATCH_ALL_TYPES_AND2 Y X TYPE NAME body)
        (AT_DISPATCH_ALL_TYPES TYPE NAME body) Y X rfl
        (nodup_labels_expand Profile.ALL_TYPES (by decide) TYPE NAME body)]
    constructor <;> intro h <;> rcases h with h | h | h
    · exact Or.inr (Or.inl h)
    · exact Or.inl h
    · exact Or.inr (Or.inr h.symm)
    · exact Or.inr (Or.inl h)
    · exact Or.inl h
    · exact Or.inr (Or.inr h.symm)
  · rw [compile_none_two (AT_DISPATCH_FLOATING_TYPES_AND2 X Y TYPE NAME body)
        (AT_DISPATCH_FLOATING_TYPES TYPE NAME body) X Y rfl
        (nodup_labels_expand Profile.FLOATING_TYPES (by decide) TYPE NAME body),
      compile_none_two (AT_DISPATCH_FLOATING_TYPES_AND2 Y X TYPE NAME body)
        (AT_DISPATCH_FLOATING_TYPES TYPE NAME body) Y X rfl
        (nodup_labels_expand Profile.FLOATING_TYPES (by decide) TYPE NAME body)]
    constructor <;> intro h <;> rcases h with h | h | h
    · exact Or.inr (Or.inl h)
    · exact Or.inl h
    · exact Or.inr (Or.inr h.symm)
    · exact Or.inr (Or.inl h)
    · exact Or.inl h
    · exact Or.inr (Or.inr h.symm)

/-- C24: tag normalisation does not change the selected tag.  `detail::scalar_type` returns
an `at::ScalarType` unchanged and returns the `scalarType()` of an
`at::DeprecatedTypeProperties`; hence each definition that normalises its tag and reports
`_st`, used on an expression that yields a legacy type-properties value, has the outcome it
has on the expression that yields the scalar type of that value (for a plain value `d`:
dispatching on `d` is dispatching on `d.scalarType()`). -/
theorem C24_tag_normalisation (st : ScalarType) (d : DeprecatedTypeProperties) (σ R : Type)
    (TYPE : Comp σ DeprecatedTypeProperties) (NAME : NameArg) (body : Body σ R) (s : σ) :
    detail.scalar_type st = st
    ∧ detail.scalar_type d = d.scalarType
    ∧ (AT_DISPATCH_FLOATING_TYPES (Comp.pure d : Comp σ DeprecatedTypeProperties) NAME
          body).invoke s
        = (AT_DISPATCH_FLOATING_TYPES (Comp.pure d.scalarType : Comp σ ScalarType) NAME
            body).invoke s
    ∧ ((AT_DISPATCH_FLOATING_TYPES TYPE NAME body).invoke s
        = (AT_DISPATCH_FLOATING_TYPES
            (Comp.bind TYPE (fun x => Comp.pure (DeprecatedTypeProperties.scalarType x)))
            NAME body).invoke s)
    ∧ ((AT_DISPATCH_FLOATING_TYPES_AND_HALF TYPE NAME body).invoke s
        = (AT_DISPATCH_FLOATING_TYPES_AND_HALF
            (Comp.bind TYPE (fun x => Comp.pure (DeprecatedTypeProperties.scalarType x)))
            NAME body).invoke s)
    ∧ ((AT_DISPATCH_FLOATING_AND_COMPLEX_TYPES TYPE NAME body).invoke s
        = (AT_DISPATCH_FLOATING_AND_COMPLEX_TYPES
            (Comp.bind TYPE (fun x => Comp.pure (DeprecatedTypeProperties.scalarType x)))
            NAME body).invoke s)
    ∧ (∀ X : ScalarType, (AT_DISPATCH_FLOATING_AND_COMPLEX_TYPES_AND1 X TYPE NAME body).invoke s
        = (AT_DISPATCH_FLOATING_AND_COMPLEX_TYPES_AND1 X
            (Comp.bind TYPE (fun x => Comp.pure (DeprecatedTypeProperties.scalarType x)))
            NAME body).invoke s)
    ∧ (∀ X1 X2 : ScalarType, (AT_DISPATCH_FLOATING_AND_COMPLEX_TYPES_AND2 X1 X2 TYPE NAME body).invoke s
        = (AT_DISPATCH_FLOATING_AND_COMPLEX_TYPES_AND2 X1 X2
            (Comp.bind TYPE (fun x => Comp.pure (DeprecatedTypeProperties.scalarType x)))
            NAME body).invoke s)
    ∧ ((AT_DISPATCH_INTEGRAL_TYPES TYPE NAME body).invoke s
        = (AT_DISPATCH_INTEGRAL_TYPES
            (Comp.bind TYPE (fun x => Comp.pure (DeprecatedTypeProperties.scalarType x)))
            NAME body).invoke s)
    ∧ ((AT_DISPATCH_ALL_TYPES TYPE NAME body).invoke s
        = (AT_DISPATCH_ALL_TYPES
            (Comp.bind TYPE (fun x => Comp.pure (DeprecatedTypeProperties.scalarType x)))
            NAME body).invoke s)
    ∧ ((AT_DISPATCH_COMPLEX_TYPES TYPE NAME body).invoke s
        = (AT_DISPATCH_COMPLEX_TYPES
            (Comp.bind TYPE (fun x => Comp.pure (DeprecatedTypeProperties.scalarType x)))
            NAME body).invoke s)
    ∧ ((AT_DISPATCH_ALL_TYPES_AND_COMPLEX TYPE NAME body).invoke s
        = (AT_DISPATCH_ALL_TYPES_AND_COMPLEX
            (Comp.bind TYPE (fun x => Comp.pure (DeprecatedTypeProperties.scalarType x)))
            NAME body).invoke s)
    ∧ ((AT_DISPATCH_ALL_TYPES_AND_HALF TYPE NAME body).invoke s
        = (AT_DISPATCH_ALL_TYPES_AND_HALF
            (Comp.bind TYPE (fun x => Comp.pure (DeprecatedTypeProperties.scalarType x)))
            NAME body).invoke s) :=
  ⟨rfl, rfl, rfl,
    invoke_congr (AT_DISPATCH_FLOATING_TYPES TYPE NAME body)
      (AT_DISPATCH_FLOATING_TYPES
        (Comp.bind TYPE (fun x => Comp.pure (DeprecatedTypeProperties.scalarType x))) NAME body)
      (fun x => scrutinee_normalised TYPE x) rfl rfl s,
    invoke_congr (AT_DISPATCH_FLOATING_TYPES_AND_HALF TYPE NAME body)
      (AT_DISPATCH_FLOATING_TYPES_AND_HALF
        (Comp.bind TYPE (fun x => Comp.pure (DeprecatedTypeProperties.scalarType x))) NAME body)
      (fun x => scrutinee_normalised TYPE x) rfl rfl s,
    invoke_congr (AT_DISPATCH_FLOATING_AND_COMPLEX_TYPES TYPE NAME body)
      (AT_DISPATCH_FLOATING_AND_COMPLEX_TYPES
        (Comp.bind TYPE (fun x => Comp.pure (DeprecatedTypeProperties.scalarType x))) NAME body)
      (fun x => scrutinee_normalised TYPE x) rfl rfl s,
    fun X => invoke_congr (AT_DISPATCH_FLOATING_AND_COMPLEX_TYPES_AND1 X TYPE NAME body)
      (AT_DISPATCH_FLOATING_AND_COMPLEX_TYPES_AND1 X
        (Comp.bind TYPE (fun x => Comp.pure (DeprecatedTypeProperties.scalarType x))) NAME body)
      (fun x => scrutinee_normalised TYPE x) rfl rfl s,
    fun X1 X2 => invoke_congr (AT_DISPATCH_FLOATING_AND_COMPLEX_TYPES_AND2 X1 X2 TYPE NAME body)
      (AT_DISPATCH_FLOATING_AND_COMPLEX_TYPES_AND2 X1 X2
        (Comp.bind TYPE (fun x => Comp.pure (DeprecatedTypeProperties.scalarType x))) NAME body)
      (fun x => scrutinee_normalised TYPE x) rfl rfl s,
    invoke_congr (AT_DISPATCH_INTEGRAL_TYPES TYPE NAME body)
      (AT_DISPATCH_INTEGRAL_TYPES
        (Comp.bind TYPE (fun x => Comp.pure (DeprecatedTypeProperties.scalarType x))) NAME body)
      (fun x => scrutinee_normalised TYPE x) rfl rfl s,
    invoke_congr (AT_DISPATCH_ALL_TYPES TYPE NAME body)
      (AT_DISPATCH_ALL_TYPES
        (Comp.bind TYPE (fun x => Comp.pure (DeprecatedTypeProperties.scalarType x))) NAME body)
      (fun x => scrutinee_normalised TYPE x) rfl rfl s,
    invoke_congr (AT_DISPATCH_COMPLEX_TYPES TYPE NAME body)
      (AT_DISPATCH_COMPLEX_TYPES
        (Comp.bind TYPE (fun x => Comp.pure (DeprecatedTypeProperties.scalarType x))) NAME body)
      (fun x => scrutinee_normalised TYPE x) rfl rfl s,
    invoke_congr (AT_DISPATCH_ALL_TYPES_AND_COMPLEX TYPE NAME body)
      (AT_DISPATCH_ALL_TYPES_AND_COMPLEX
        (Comp.bind TYPE (fun x => Comp.pure (DeprecatedTypeProperties.scalarType x))) NAME body)
      (fun x => scrutinee_normalised TYPE x) rfl rfl s,
    invoke_congr (AT_DISPATCH_ALL_TYPES_AND_HALF TYPE NAME body)
      (AT_DISPATCH_ALL_TYPES_AND_HALF
        (Comp.bind TYPE (fun x => Comp.pure (DeprecatedTypeProperties.scalarType x))) NAME body)
      (fun x => scrutinee_normalised TYPE x) rfl rfl s⟩

end ATen
